import Mathlib

/-!
# Frontend service (`src/frontend/server.js`): instrumentation pipeline

A shallow embedding of the Express application defined in `server.js`.

* The process-wide registries (the three Prometheus metrics, the Jaeger tracer,
  the Winston logger, the outbound HTTP client) are the fields of `World`.
* The `req` / `res` pair of one request is an `Exchange`.
* Everything the code reads from outside the process while it handles one
  request (clock, uuid generator, file system, downstream service) is an `Env`.
* A handler is a function from `World` to `World` that also yields the
  `Response` written to the client; `handleRequest` runs one request from arrival
  to response.
* Handlers that `await` are split at their suspension point; `Process` is the state
  of the event loop, which interleaves the arrival of requests with the resumption
  of suspended handlers.

The libraries (`express`, `axios`, `prom-client`, `jaeger-client`, `winston`) are
not part of the repository; they are modelled by their documented behaviour,
next to the place the code calls them.
-/

namespace Frontend

/-! ## Values -/

/-- JavaScript data as it is serialised by `res.json`, by the logger and by span tags. -/
inductive Json : Type
  | null
  | bool (b : Bool)
  | num (q : ℚ)
  | str (s : String)
  | arr (items : List Json)
  | obj (fields : List (String × Json))

/-- A thrown JavaScript `Error`: the code reads `message` and `stack`. -/
structure JsError where
  message : String
  stack : String

/-- The test `v === true` on a tag value. -/
def Json.isTrue : Json → Bool
  | Json.bool true => true
  | _ => false

/-- JavaScript truthiness, as used by `||`. -/
def Json.truthy : Json → Bool
  | Json.null => false
  | Json.bool b => b
  | Json.num q => decide (q ≠ 0)
  | Json.str s => decide (s ≠ "")
  | Json.arr _ => true
  | Json.obj _ => true

/-- Number of UTF-16 code units of a string (`String.prototype.length`). -/
def utf16Length (s : String) : Nat :=
  (s.toList.map fun c => if c.toNat < 65536 then 1 else 2).sum

/-- The last binding of a key in an object (later keys override earlier ones). -/
def lookupField (key : String) : List (String × Json) → Option Json
  | [] => none
  | (k, v) :: rest =>
    match lookupField key rest with
    | some later => some later
    | none => if k = key then some v else none

/-- The expression `response.data?.length || 0` of the `/api/products` success log. -/
def productsCount (data : Json) : Json :=
  let length : Option Json :=
    match data with
    | Json.arr items => some (Json.num items.length)
    | Json.str s => some (Json.num (utf16Length s))
    | Json.obj fields => lookupField "length" fields
    | _ => none
  match length with
  | some v => if v.truthy then v else Json.num 0
  | none => Json.num 0

/-! ## Tracer (`jaeger-client` / `opentracing`) -/

/-- A trace context extracted from inbound headers by `tracer.extract`. -/
structure SpanContext where
  traceId : String
  spanId : String

/-- The `childOf` option of `tracer.startSpan`. -/
inductive Parent : Type
  | remote (ctx : SpanContext)
  | span (id : Nat)

/-- One call on the tracer or on a span, in the order the calls are made. -/
inductive SpanEvent : Type
  | start (id : Nat) (operationName : String) (childOf : Option Parent)
      (tags : List (String × Json))
  | setTag (id : Nat) (key : String) (value : Json)
  | log (id : Nat) (fields : List (String × Json))
  | finish (id : Nat)

/-- The span a call is made on. -/
def SpanEvent.id : SpanEvent → Nat
  | SpanEvent.start id _ _ _ => id
  | SpanEvent.setTag id _ _ => id
  | SpanEvent.log id _ => id
  | SpanEvent.finish id => id

/-- The identity of the next span the tracer creates: one not used by any span so far. -/
def freshId : List SpanEvent → Nat
  | [] => 0
  | e :: rest => max (e.id + 1) (freshId rest)

/-- The value of `opentracing.Tags.ERROR`. -/
def Tags.ERROR : String := "error"

/-- The value of `opentracing.Tags.HTTP_STATUS_CODE`. -/
def Tags.HTTP_STATUS_CODE : String := "http.status_code"

/-- The value of `opentracing.Tags.HTTP_METHOD`. -/
def Tags.HTTP_METHOD : String := "http.method"

/-- The value of `opentracing.Tags.HTTP_URL`. -/
def Tags.HTTP_URL : String := "http.url"

/-- The value of `opentracing.Tags.SPAN_KIND`. -/
def Tags.SPAN_KIND : String := "span.kind"

/-- The value of `opentracing.Tags.SPAN_KIND_RPC_SERVER`. -/
def Tags.SPAN_KIND_RPC_SERVER : String := "server"

/-! ## Logger (`winston`) -/

/-- The log levels the code uses. -/
inductive Level : Type
  | info
  | warn
  | error
  deriving DecidableEq

/-- One structured record the application code hands to the logger. A field whose value is
`undefined` is absent from the record; the `timestamp` and `service` fields the logger adds
to every record are left out, and so are the lines the tracer itself writes through
`jaegerOptions.logger` (one info-level line per reported span). -/
structure LogEvent where
  level : Level
  message : String
  fields : List (String × Json)

/-- A field whose value may be `undefined`. -/
def optField (key : String) : Option String → List (String × Json)
  | some v => [(key, Json.str v)]
  | none => []

/-! ## Outbound HTTP client (`axios`) -/

/-- What the downstream service does with one GET: it answers after some delay, or the
connection fails after some delay. -/
inductive BackendReply : Type
  | responds (delayMs : Nat) (status : Nat) (data : Json)
  | networkError (afterMs : Nat) (message : String)

/-- A resolved `axios` response: the code reads `status` and `data`. -/
structure AxiosResponse where
  status : Nat
  data : Json

/-- One call of `axios.get(url, { headers, timeout })`; `traceSpan` is the span whose
context `tracer.inject` wrote into `headers`. -/
structure BackendCall where
  url : String
  timeout : Nat
  traceSpan : Nat

/-- The promise returned by `axios.get`: with a non-zero `timeout`, a reply that has not
arrived within `timeout` milliseconds rejects; a reply whose status is outside 200..299
rejects (the default `validateStatus`); a connection failure rejects. -/
def axiosGet (timeout : Nat) (stack : String) : BackendReply → Except JsError AxiosResponse
  | BackendReply.responds delayMs status data =>
    if timeout ≠ 0 ∧ timeout ≤ delayMs then
      Except.error { message := "timeout of " ++ toString timeout ++ "ms exceeded", stack := stack }
    else if 200 ≤ status ∧ status < 300 then
      Except.ok { status := status, data := data }
    else
      Except.error
        { message := "Request failed with status code " ++ toString status, stack := stack }
  | BackendReply.networkError afterMs message =>
    if timeout ≠ 0 ∧ timeout ≤ afterMs then
      Except.error { message := "timeout of " ++ toString timeout ++ "ms exceeded", stack := stack }
    else
      Except.error { message := message, stack := stack }

/-! ## Process state -/

/-- The label values `(method, path, status)` of the two request metrics. -/
abbrev Labels : Type := String × String × String

/-- The registries of the process. A counter maps each label combination to its value;
the histogram maps each label combination to the values observed under it, oldest first
(its count, sum and bucket counts are functions of that list). -/
structure World where
  httpRequestsTotal : Labels → Nat
  httpRequestDuration : Labels → List ℚ
  frontendErrorsTotal : String → Nat
  tracer : List SpanEvent
  logger : List LogEvent
  axios : List BackendCall

/-- The process right after start-up. -/
def World.init : World :=
  { httpRequestsTotal := fun _ => 0
    httpRequestDuration := fun _ => []
    frontendErrorsTotal := fun _ => 0
    tracer := []
    logger := []
    axios := [] }

/-- The bucket boundaries of `http_request_duration_seconds`. -/
def buckets : List ℚ := [1 / 10, 1 / 2, 1, 2, 5, 10]

/-- The `_count` series of a histogram child. -/
def observationCount (observations : List ℚ) : Nat := observations.length

/-- The `_sum` series of a histogram child. -/
def observationSum (observations : List ℚ) : ℚ := observations.sum

/-- The cumulative `_bucket` series of a histogram child for the boundary `le`. -/
def bucketCount (le : ℚ) (observations : List ℚ) : Nat :=
  (observations.filter fun v => decide (v ≤ le)).length

/-- The call `httpRequestsTotal.labels(...).inc()`. -/
def World.incRequests (w : World) (l : Labels) : World :=
  { w with httpRequestsTotal := fun k => if k = l then w.httpRequestsTotal k + 1
                                         else w.httpRequestsTotal k }

/-- The call `httpRequestDuration.labels(...).observe(duration)`. -/
def World.observeDuration (w : World) (l : Labels) (duration : ℚ) : World :=
  { w with httpRequestDuration := fun k => if k = l then w.httpRequestDuration k ++ [duration]
                                           else w.httpRequestDuration k }

/-- The call `frontendErrorsTotal.labels(type).inc()`. -/
def World.incErrors (w : World) (type : String) : World :=
  { w with frontendErrorsTotal := fun k => if k = type then w.frontendErrorsTotal k + 1
                                           else w.frontendErrorsTotal k }

/-- The call `tracer.startSpan(name, { childOf, tags })`: the new span and the state. -/
def World.startSpan (w : World) (operationName : String) (childOf : Option Parent)
    (tags : List (String × Json)) : Nat × World :=
  let id := freshId w.tracer
  (id, { w with tracer := w.tracer ++ [SpanEvent.start id operationName childOf tags] })

/-- The call `span.setTag(key, value)`. -/
def World.setTag (w : World) (span : Nat) (key : String) (value : Json) : World :=
  { w with tracer := w.tracer ++ [SpanEvent.setTag span key value] }

/-- The call `span.log(fields)`. -/
def World.spanLog (w : World) (span : Nat) (fields : List (String × Json)) : World :=
  { w with tracer := w.tracer ++ [SpanEvent.log span fields] }

/-- The call `span.finish()`. -/
def World.finish (w : World) (span : Nat) : World :=
  { w with tracer := w.tracer ++ [SpanEvent.finish span] }

/-- A call `logger.info(...)`, `logger.warn(...)` or `logger.error(...)`. -/
def World.log (w : World) (level : Level) (message : String)
    (fields : List (String × Json)) : World :=
  { w with logger := w.logger ++ [{ level := level, message := message, fields := fields }] }

/-- The call `axios.get(url, { headers, timeout })` leaving the process. -/
def World.call (w : World) (c : BackendCall) : World :=
  { w with axios := w.axios ++ [c] }

/-! ## One request -/

/-- What is written to the client. -/
inductive Body : Type
  | json (value : Json)
  | text (content : String)
  | file (path : String)
  | exposition
  | notFound

/-- The response as the client receives it. -/
structure Response where
  statusCode : Nat
  body : Body

/-- The inbound request as Express presents it to the middleware chain;
`parentSpanContext` is the result of `tracer.extract` on its headers. -/
structure Request where
  method : String
  path : String
  url : String
  parentSpanContext : Option SpanContext

/-- What `express.static` does with a request it is allowed to look at. -/
inductive StaticOutcome : Type
  | served (response : Response)
  | failed (err : JsError)
  | fallthrough

/-- Everything read from outside the process while one request is handled. -/
structure Env where
  /-- The outcome of the `express.static` middleware for a GET or HEAD request. -/
  staticOutcome : StaticOutcome
  /-- The error `express.json()` passes on when the body cannot be parsed. -/
  bodyError : Option JsError
  /-- The value of `uuidv4()`. -/
  requestId : String
  /-- The trace id of a span started without a parent. -/
  newTraceId : String
  /-- The value of `Date.now()` in the middleware. -/
  startTime : Int
  /-- The value of `Date.now()` in the replaced `res.send`. -/
  sendTime : Int
  /-- The value of `new Date().toISOString()` in a handler. -/
  isoTime : String
  /-- The behaviour of the downstream service on the call of this request. -/
  backend : BackendReply
  /-- The `stack` of an error created while this request is handled. -/
  errorStack : String
  /-- The outcome of `res.sendFile`: the response streamed, or the error passed to `next`. -/
  sendFile : Except JsError Response

/-- The variables captured by the function the middleware installs as `res.send`. -/
structure SendHook where
  startTime : Int
  requestId : String
  span : Nat

/-- The `req` / `res` pair while the request travels through the middleware chain. -/
structure Exchange where
  method : String
  path : String
  url : String
  /-- The property `req.span`. -/
  span : Option Nat
  /-- The property `req.requestId`. -/
  requestId : Option String
  /-- The property `req.traceId`. -/
  traceId : Option String
  /-- The property `res.statusCode`. -/
  statusCode : Nat
  /-- The replaced `res.send`, when the tracing middleware has installed it. -/
  send : Option SendHook

/-- The pair Express creates for an inbound request. -/
def Exchange.ofRequest (r : Request) : Exchange :=
  { method := r.method, path := r.path, url := r.url, span := none, requestId := none,
    traceId := none, statusCode := 200, send := none }

/-- The string `duration.toFixed(3)` for a duration of `ms / 1000` seconds. -/
def toFixed3 (ms : Int) : String :=
  let n := ms.natAbs
  let frac := n % 1000
  let pad := if frac < 10 then "00" else if frac < 100 then "0" else ""
  (if ms < 0 then "-" else "") ++ toString (n / 1000) ++ "." ++ pad ++ toString frac

/-- The fields `request_id` and `trace_id` read from `req`. -/
def Exchange.ids (x : Exchange) : List (String × Json) :=
  optField "request_id" x.requestId ++ optField "trace_id" x.traceId

/-- The tracing and metrics middleware (`app.use((req, res, next) => ...)`), up to `next()`. -/
def tracingMiddleware (w : World) (x : Exchange) (r : Request) (env : Env) : World × Exchange :=
  let startTime := env.startTime
  let requestId := env.requestId
  let parentSpanContext := r.parentSpanContext
  let (span, w1) := w.startSpan (x.method ++ " " ++ x.path) (parentSpanContext.map Parent.remote)
    [(Tags.SPAN_KIND, Json.str Tags.SPAN_KIND_RPC_SERVER),
     (Tags.HTTP_METHOD, Json.str x.method),
     (Tags.HTTP_URL, Json.str x.url),
     ("request.id", Json.str requestId)]
  let traceId := match parentSpanContext with
    | some ctx => ctx.traceId
    | none => env.newTraceId
  let x1 := { x with span := some span, requestId := some requestId, traceId := some traceId }
  let w2 := w1.log Level.info "Requête reçue"
    ([("method", Json.str x1.method), ("path", Json.str x1.path)] ++ x1.ids)
  (w2, { x1 with send := some { startTime := startTime, requestId := requestId, span := span } })

/-- A call of `res.send(data)`. When the middleware has replaced `res.send`, the replacement
runs first: it restores the original, records the metrics, completes the span and logs; the
original `send` then writes the response. -/
def resSend (w : World) (x : Exchange) (env : Env) (data : Body) : World × Response :=
  match x.send with
  | some hook =>
    let elapsed : Int := env.sendTime - hook.startTime
    let duration : ℚ := (elapsed : ℚ) / 1000
    let labels : Labels := (x.method, x.path, toString x.statusCode)
    let w1 := w.incRequests labels
    let w2 := w1.observeDuration labels duration
    let w3 := w2.setTag hook.span Tags.HTTP_STATUS_CODE (Json.num x.statusCode)
    let w4 := if x.statusCode ≥ 400 then w3.setTag hook.span Tags.ERROR (Json.bool true) else w3
    let w5 := w4.finish hook.span
    let w6 := w5.log Level.info "Requête complétée"
      ([("method", Json.str x.method), ("path", Json.str x.path),
        ("status", Json.num x.statusCode), ("duration_seconds", Json.str (toFixed3 elapsed)),
        ("request_id", Json.str hook.requestId)] ++ optField "trace_id" x.traceId)
    (w6, { statusCode := x.statusCode, body := data })
  | none => (w, { statusCode := x.statusCode, body := data })

/-- A call of `res.status(code).json(value)`: `res.json` serialises and calls `res.send`. -/
def resStatusJson (w : World) (x : Exchange) (env : Env) (code : Nat) (value : Json) :
    World × Response :=
  resSend w { x with statusCode := code } env (Body.json value)

/-- A call of `res.end(data)`: the response is written without going through `res.send`. -/
def resEnd (w : World) (x : Exchange) (data : Body) : World × Response :=
  (w, { statusCode := x.statusCode, body := data })

/-- The global error handler (`app.use((err, req, res, next) => ...)`). -/
def globalErrorHandler (w : World) (x : Exchange) (env : Env) (err : JsError) :
    World × Response :=
  let w1 := w.incErrors "unhandled_error"
  let w2 := w1.log Level.error "Erreur non gérée"
    ([("error", Json.str err.message), ("stack", Json.str err.stack)] ++ x.ids)
  let w3 := match x.span with
    | some span =>
      (w2.setTag span Tags.ERROR (Json.bool true)).spanLog span
        [("event", Json.str "error"), ("message", Json.str err.message),
         ("stack", Json.str err.stack)]
    | none => w2
  resStatusJson w3 x env 500
    (Json.obj [("error", Json.str "Erreur interne"), ("message", Json.str err.message)])

/-- The handler of `GET /`. -/
def root (w : World) (x : Exchange) (env : Env) : World × Response :=
  match env.sendFile with
  | Except.ok response => (w, response)
  | Except.error err => globalErrorHandler w x env err

/-- The handler of `GET /health`. -/
def health (w : World) (x : Exchange) (env : Env) : World × Response :=
  let w1 := w.log Level.info "Healthcheck appelé" x.ids
  resStatusJson w1 x env 200
    (Json.obj [("status", Json.str "UP"), ("service", Json.str "frontend"),
               ("timestamp", Json.str env.isoTime)])

/-- The handler of `GET /metrics`. -/
def metrics (w : World) (x : Exchange) : World × Response :=
  resEnd w x Body.exposition

/-- A call of `res.json(value)` with the status left as it is. -/
def resJson (w : World) (x : Exchange) (env : Env) (value : Json) : World × Response :=
  resSend w x env (Body.json value)

/-- The handler of `GET /api/products` up to the `await`: the child span is opened, the
call is logged and tagged, and the request leaves for the backend. -/
def apiProductsBegin (BACKEND_URL : String) (w : World) (x : Exchange) : Nat × World :=
  let span := x.span
  let (childSpan, w1) := w.startSpan "call_backend_products" (span.map Parent.span) []
  let w2 := w1.log Level.info "Appel backend /products"
    ([("backend_url", Json.str BACKEND_URL)] ++ x.ids)
  let w3 := w2.setTag childSpan Tags.HTTP_METHOD (Json.str "GET")
  let w4 := w3.setTag childSpan Tags.HTTP_URL (Json.str (BACKEND_URL ++ "/products"))
  (childSpan, w4.call { url := BACKEND_URL ++ "/products", timeout := 5000, traceSpan := childSpan })

/-- The handler of `GET /api/products` after the `await`: the rest of the `try` block when
the promise resolved, the `catch` block when it rejected. -/
def apiProductsResume (BACKEND_URL : String) (w : World) (x : Exchange) (env : Env)
    (childSpan : Nat) : Except JsError AxiosResponse → World × Response
  | Except.ok response =>
    let w1 := w.setTag childSpan Tags.HTTP_STATUS_CODE (Json.num response.status)
    let w2 := w1.finish childSpan
    let w3 := w2.log Level.info "Réponse backend reçue"
      ([("status", Json.num response.status), ("products_count", productsCount response.data)]
        ++ x.ids)
    resJson w3 x env response.data
  | Except.error error =>
    let w1 := w.setTag childSpan Tags.ERROR (Json.bool true)
    let w2 := w1.spanLog childSpan [("event", Json.str "error"), ("message", Json.str error.message)]
    let w3 := w2.finish childSpan
    let w4 := w3.incErrors "backend_call_error"
    let w5 := w4.log Level.error "Erreur lors de l\x27appel au backend"
      ([("error", Json.str error.message), ("backend_url", Json.str BACKEND_URL)] ++ x.ids
        ++ [("stack", Json.str error.stack)])
    resStatusJson w5 x env 503
      (Json.obj [("error", Json.str "Service backend indisponible"),
                 ("message", Json.str error.message)])

/-- The handler of `GET /api/products`. -/
def apiProducts (BACKEND_URL : String) (w : World) (x : Exchange) (env : Env) :
    World × Response :=
  let (childSpan, w1) := apiProductsBegin BACKEND_URL w x
  apiProductsResume BACKEND_URL w1 x env childSpan (axiosGet 5000 env.errorStack env.backend)

/-- The handler of `GET /api/slow` up to the `await`. -/
def apiSlowBegin (BACKEND_URL : String) (w : World) (x : Exchange) : Nat × World :=
  let span := x.span
  let (childSpan, w1) := w.startSpan "call_backend_slow" (span.map Parent.span) []
  let w2 := w1.log Level.info "Appel backend /slow"
    ([("backend_url", Json.str BACKEND_URL)] ++ x.ids)
  let w3 := w2.setTag childSpan Tags.HTTP_METHOD (Json.str "GET")
  let w4 := w3.setTag childSpan Tags.HTTP_URL (Json.str (BACKEND_URL ++ "/slow"))
  (childSpan, w4.call { url := BACKEND_URL ++ "/slow", timeout := 15000, traceSpan := childSpan })

/-- The handler of `GET /api/slow` after the `await`. -/
def apiSlowResume (w : World) (x : Exchange) (env : Env)
    (childSpan : Nat) : Except JsError AxiosResponse → World × Response
  | Except.ok response =>
    let w1 := w.setTag childSpan Tags.HTTP_STATUS_CODE (Json.num response.status)
    let w2 := w1.finish childSpan
    let w3 := w2.log Level.info "Réponse backend lente reçue"
      ([("status", Json.num response.status)] ++ x.ids)
    resJson w3 x env response.data
  | Except.error error =>
    let w1 := w.setTag childSpan Tags.ERROR (Json.bool true)
    let w2 := w1.spanLog childSpan [("event", Json.str "error"), ("message", Json.str error.message)]
    let w3 := w2.finish childSpan
    let w4 := w3.incErrors "backend_slow_error"
    let w5 := w4.log Level.error "Erreur lors de l\x27appel au backend (endpoint lent)"
      ([("error", Json.str error.message)] ++ x.ids)
    resStatusJson w5 x env 503
      (Json.obj [("error", Json.str "Timeout ou erreur sur endpoint lent"),
                 ("message", Json.str error.message)])

/-- The handler of `GET /api/slow`. -/
def apiSlow (BACKEND_URL : String) (w : World) (x : Exchange) (env : Env) :
    World × Response :=
  let (childSpan, w1) := apiSlowBegin BACKEND_URL w x
  apiSlowResume w1 x env childSpan (axiosGet 15000 env.errorStack env.backend)

/-- The handler of `GET /api/error`. Reading `req.span.setTag` when `req.span` is undefined
throws a `TypeError`, which Express passes to the error handler. -/
def apiError (w : World) (x : Exchange) (env : Env) : World × Response :=
  let w1 := w.log Level.warn "Erreur intentionnelle déclenchée" x.ids
  let w2 := w1.incErrors "intentional_error"
  match x.span with
  | some span =>
    let w3 := w2.setTag span Tags.ERROR (Json.bool true)
    let w4 := w3.spanLog span
      [("event", Json.str "error"), ("message", Json.str "Erreur intentionnelle pour test")]
    resStatusJson w4 x env 500
      (Json.obj
        [("error", Json.str "Erreur interne du serveur"),
         ("message", Json.str
            "Cette erreur a été générée intentionnellement pour tester l\x27observabilité"),
         ("timestamp", Json.str env.isoTime)])
  | none =>
    globalErrorHandler w2 x env
      { message := "Cannot read properties of undefined (reading \x27setTag\x27)",
        stack := env.errorStack }

/-! ## Routing (Express router) -/

/-- The routes registered with `app.get`. -/
inductive Route : Type
  | root
  | health
  | metrics
  | apiProducts
  | apiSlow
  | apiError
  deriving DecidableEq

/-- The path a route is registered under. -/
def Route.pattern : Route → String
  | Route.root => "/"
  | Route.health => "/health"
  | Route.metrics => "/metrics"
  | Route.apiProducts => "/api/products"
  | Route.apiSlow => "/api/slow"
  | Route.apiError => "/api/error"

/-- The routes in the order they are registered. -/
def routes : List Route :=
  [Route.root, Route.health, Route.metrics, Route.apiProducts, Route.apiSlow, Route.apiError]

/-- A string with its letters `A`..`Z` replaced by `a`..`z`. -/
def lowerCase (s : String) : String :=
  String.mk (s.toList.map Char.toLower)

/-- Path matching of the router in its default mode: letter case is ignored and one
trailing slash is optional. -/
def pathMatches (pattern path : String) : Bool :=
  let p := lowerCase path
  if pattern = "/" then p = "/" || p = "" else p = pattern || p = pattern ++ "/"

/-- What the router does with a request that reached it. -/
inductive Dispatch : Type
  | handler (route : Route)
  | options
  | notFound
  deriving DecidableEq

/-- Dispatch of the router: a route registered with `app.get` handles GET and HEAD; an
OPTIONS request whose path matches a route is answered by the router itself; anything else
is left to the default not-found response. -/
def dispatch (method path : String) : Dispatch :=
  match routes.find? fun r => pathMatches r.pattern path with
  | some route =>
    if method = "GET" ∨ method = "HEAD" then Dispatch.handler route
    else if method = "OPTIONS" then Dispatch.options
    else Dispatch.notFound
  | none => Dispatch.notFound

/-- The handler registered for a route. -/
def handleRoute (BACKEND_URL : String) (w : World) (x : Exchange) (env : Env) :
    Route → World × Response
  | Route.root => root w x env
  | Route.health => health w x env
  | Route.metrics => metrics w x
  | Route.apiProducts => apiProducts BACKEND_URL w x env
  | Route.apiSlow => apiSlow BACKEND_URL w x env
  | Route.apiError => apiError w x env

/-- The `express.static` middleware: it looks only at GET and HEAD requests and passes
every other request on. -/
def staticResult (r : Request) (env : Env) : StaticOutcome :=
  if r.method = "GET" ∨ r.method = "HEAD" then env.staticOutcome else StaticOutcome.fallthrough

/-- The middleware chain of the application, in registration order: `express.static`,
`express.json`, the tracing middleware, the routes, and the error handler for an error
passed to `next`. -/
def handleRequest (BACKEND_URL : String) (w : World) (r : Request) (env : Env) :
    World × Response :=
  let x := Exchange.ofRequest r
  match staticResult r env with
  | StaticOutcome.served response => (w, response)
  | StaticOutcome.failed err => globalErrorHandler w x env err
  | StaticOutcome.fallthrough =>
    match env.bodyError with
    | some err => globalErrorHandler w x env err
    | none =>
      let (w1, x1) := tracingMiddleware w x r env
      match dispatch r.method r.path with
      | Dispatch.handler route => handleRoute BACKEND_URL w1 x1 env route
      | Dispatch.options => resSend w1 x1 env (Body.text "GET,HEAD")
      | Dispatch.notFound => resEnd w1 { x1 with statusCode := 404 } Body.notFound

/-- The process handling a sequence of requests, each with its own environment. -/
def run (BACKEND_URL : String) (w : World) : List (Request × Env) → World
  | [] => w
  | (r, env) :: rest => run BACKEND_URL (handleRequest BACKEND_URL w r env).1 rest

/-! ## Observations on the tracer -/

/-- A `startSpan` call whose `childOf` is not a span of this process: a root span. -/
def SpanEvent.isRootStart : SpanEvent → Bool
  | SpanEvent.start _ _ (some (Parent.span _)) _ => false
  | SpanEvent.start _ _ _ _ => true
  | _ => false

/-- A `startSpan` call whose `childOf` is a span of this process: a child span. -/
def SpanEvent.isChildStart : SpanEvent → Bool
  | SpanEvent.start _ _ (some (Parent.span _)) _ => true
  | _ => false

/-- A `startSpan` call that creates the span `id`. -/
def SpanEvent.isStartOf (id : Nat) : SpanEvent → Bool
  | SpanEvent.start j _ _ _ => decide (j = id)
  | _ => false

/-- A `finish` call on the span `id`. -/
def SpanEvent.isFinishOf (id : Nat) : SpanEvent → Bool
  | SpanEvent.finish j => decide (j = id)
  | _ => false

/-- Number of times the span `id` is started in a sequence of tracer calls. -/
def startCount (id : Nat) (events : List SpanEvent) : Nat :=
  events.countP (SpanEvent.isStartOf id)

/-- Number of times the span `id` is finished in a sequence of tracer calls. -/
def finishCount (id : Nat) (events : List SpanEvent) : Nat :=
  events.countP (SpanEvent.isFinishOf id)

/-- The spans started as root spans in a sequence of tracer calls. -/
def rootSpans (events : List SpanEvent) : List Nat :=
  (events.filter SpanEvent.isRootStart).map SpanEvent.id

/-- The spans started as child spans in a sequence of tracer calls. -/
def childSpans (events : List SpanEvent) : List Nat :=
  (events.filter SpanEvent.isChildStart).map SpanEvent.id

/-- The parent of the span `id`, when it was started as a child of a span of this process. -/
def parentOf (id : Nat) : List SpanEvent → Option Nat
  | [] => none
  | SpanEvent.start j _ (some (Parent.span p)) _ :: rest =>
    if j = id then some p else parentOf id rest
  | _ :: rest => parentOf id rest

/-- The value a list of tags gives to `error`, if it sets it (the last setting counts). -/
def errorIn (current : Bool) : List (String × Json) → Bool
  | [] => current
  | (k, v) :: rest => errorIn (if k = Tags.ERROR then v.isTrue else current) rest

/-- Scan of the tracer calls for the span `id`: `current` tells whether its tag `error` is
`true` so far; the result is that flag at the first `finish` of the span, and `none` when
the span is never finished. -/
def errorAtFinishFrom (id : Nat) (current : Bool) : List SpanEvent → Option Bool
  | [] => none
  | SpanEvent.start j _ _ tags :: rest =>
    errorAtFinishFrom id (if j = id then errorIn false tags else current) rest
  | SpanEvent.setTag j k v :: rest =>
    errorAtFinishFrom id (if j = id ∧ k = Tags.ERROR then v.isTrue else current) rest
  | SpanEvent.log _ _ :: rest => errorAtFinishFrom id current rest
  | SpanEvent.finish j :: rest =>
    if j = id then some current else errorAtFinishFrom id current rest

/-- Whether the span `id` carries `error=true` at the moment it is finished; `none` when it
is never finished. -/
def errorAtFinish (id : Nat) (events : List SpanEvent) : Option Bool :=
  errorAtFinishFrom id false events

/-- Number of `setTag` and `log` calls made on a span after a `finish` of that span;
`finished` lists the spans finished before the first call of the sequence. -/
def lateMutationsFrom (finished : List Nat) : List SpanEvent → Nat
  | [] => 0
  | SpanEvent.start _ _ _ _ :: rest => lateMutationsFrom finished rest
  | SpanEvent.setTag j _ _ :: rest =>
    (if j ∈ finished then 1 else 0) + lateMutationsFrom finished rest
  | SpanEvent.log j _ :: rest =>
    (if j ∈ finished then 1 else 0) + lateMutationsFrom finished rest
  | SpanEvent.finish j :: rest => lateMutationsFrom (j :: finished) rest

/-- The spans finished in a sequence of tracer calls, latest first. -/
def finishedIds : List SpanEvent → List Nat
  | [] => []
  | SpanEvent.finish j :: rest => finishedIds rest ++ [j]
  | _ :: rest => finishedIds rest

/-- Number of `setTag` and `log` calls made on a span that is already finished. -/
def lateMutations (events : List SpanEvent) : Nat :=
  lateMutationsFrom [] events

/-- The tracer calls made between the state `w` and a later state `w2`. -/
def callsSince (w w2 : World) : List SpanEvent :=
  w2.tracer.drop w.tracer.length

/-- The log records written between the state `w` and a later state `w2`. -/
def logsSince (w w2 : World) : List LogEvent :=
  w2.logger.drop w.logger.length

/-- Whether a failure of the downstream call was observed by `axios.get`. -/
def failed : Except JsError AxiosResponse → Bool
  | Except.ok _ => false
  | Except.error _ => true

/-- The request counter and the observation count of the histogram agree on every label
combination. -/
def MetricsInSync (w : World) : Prop :=
  ∀ l, w.httpRequestsTotal l = observationCount (w.httpRequestDuration l)

/-- The contract the specification gives to a route that calls the downstream service at
`path` with the timeout `timeout` and counts a failure under `category`: one downstream
call is made; one child span is started and finished; a resolved call yields status 200
with the downstream data as body and leaves the error counters alone; a rejected call
yields status 503 with a body of the fields `error` and `message` and adds 1 to the
counter of `category` only. -/
def DownstreamContract (route : Route) (path : String) (timeout : Nat) (category : String) :
    Prop :=
  ∀ (BACKEND_URL : String) (w : World) (r : Request) (env : Env),
    staticResult r env = StaticOutcome.fallthrough →
    env.bodyError = none →
    dispatch r.method r.path = Dispatch.handler route →
    (handleRequest BACKEND_URL w r env).1.axios = w.axios ++
      [{ url := BACKEND_URL ++ path, timeout := timeout, traceSpan := freshId w.tracer + 1 }] ∧
    childSpans (callsSince w (handleRequest BACKEND_URL w r env).1) = [freshId w.tracer + 1] ∧
    startCount (freshId w.tracer + 1) (handleRequest BACKEND_URL w r env).1.tracer = 1 ∧
    finishCount (freshId w.tracer + 1) (handleRequest BACKEND_URL w r env).1.tracer = 1 ∧
    match axiosGet timeout env.errorStack env.backend with
    | Except.ok response =>
      (handleRequest BACKEND_URL w r env).2.statusCode = 200 ∧
      (handleRequest BACKEND_URL w r env).2.body = Body.json response.data ∧
      (handleRequest BACKEND_URL w r env).1.frontendErrorsTotal = w.frontendErrorsTotal
    | Except.error error =>
      (handleRequest BACKEND_URL w r env).2.statusCode = 503 ∧
      (∃ text, (handleRequest BACKEND_URL w r env).2.body = Body.json (Json.obj
        [("error", Json.str text), ("message", Json.str error.message)])) ∧
      (handleRequest BACKEND_URL w r env).1.frontendErrorsTotal category =
        w.frontendErrorsTotal category + 1 ∧
      ∀ type, type ≠ category →
        (handleRequest BACKEND_URL w r env).1.frontendErrorsTotal type =
          w.frontendErrorsTotal type

/-! ## Interleaved requests -/

/-- What remains to be done for a request whose handler is suspended: the rest of
`/api/products` or `/api/slow` after the `await` (with the child span it opened), the
callback of `res.sendFile`, or the rest of `/metrics` after its `await`. -/
inductive Continuation : Type
  | products (childSpan : Nat)
  | slow (childSpan : Nat)
  | sendFile
  | metrics

/-- A suspended request: its `req` / `res` pair, its environment and its continuation. -/
structure Pending where
  exchange : Exchange
  env : Env
  continuation : Continuation

/-- The outcome of running a request until it is answered or suspended. -/
inductive Progress : Type
  | responded (response : Response)
  | suspended (q : Pending)

/-- A route handler run until its response or its first suspension point. -/
def beginRoute (BACKEND_URL : String) (w : World) (x : Exchange) (env : Env) :
    Route → World × Progress
  | Route.root =>
    (w, Progress.suspended
      { exchange := x, env := env, continuation := Continuation.sendFile })
  | Route.health => ((health w x env).1, Progress.responded (health w x env).2)
  | Route.metrics =>
    (w, Progress.suspended
      { exchange := x, env := env, continuation := Continuation.metrics })
  | Route.apiProducts =>
    let (childSpan, w1) := apiProductsBegin BACKEND_URL w x
    (w1, Progress.suspended
      { exchange := x, env := env, continuation := Continuation.products childSpan })
  | Route.apiSlow =>
    let (childSpan, w1) := apiSlowBegin BACKEND_URL w x
    (w1, Progress.suspended
      { exchange := x, env := env, continuation := Continuation.slow childSpan })
  | Route.apiError => ((apiError w x env).1, Progress.responded (apiError w x env).2)

/-- The middleware chain run on an inbound request until the request is answered or its
handler is suspended. -/
def arrive (BACKEND_URL : String) (w : World) (r : Request) (env : Env) : World × Progress :=
  let x := Exchange.ofRequest r
  match staticResult r env with
  | StaticOutcome.served response => (w, Progress.responded response)
  | StaticOutcome.failed err =>
    ((globalErrorHandler w x env err).1, Progress.responded (globalErrorHandler w x env err).2)
  | StaticOutcome.fallthrough =>
    match env.bodyError with
    | some err =>
      ((globalErrorHandler w x env err).1,
        Progress.responded (globalErrorHandler w x env err).2)
    | none =>
      let (w1, x1) := tracingMiddleware w x r env
      match dispatch r.method r.path with
      | Dispatch.handler route => beginRoute BACKEND_URL w1 x1 env route
      | Dispatch.options =>
        ((resSend w1 x1 env (Body.text "GET,HEAD")).1,
          Progress.responded (resSend w1 x1 env (Body.text "GET,HEAD")).2)
      | Dispatch.notFound =>
        (w1, Progress.responded (resEnd w1 { x1 with statusCode := 404 } Body.notFound).2)

/-- A suspended request resumed, in the state the process is in at that moment. -/
def settle (BACKEND_URL : String) (w : World) (q : Pending) : World × Response :=
  match q.continuation with
  | Continuation.products childSpan =>
    apiProductsResume BACKEND_URL w q.exchange q.env childSpan
      (axiosGet 5000 q.env.errorStack q.env.backend)
  | Continuation.slow childSpan =>
    apiSlowResume w q.exchange q.env childSpan (axiosGet 15000 q.env.errorStack q.env.backend)
  | Continuation.sendFile => root w q.exchange q.env
  | Continuation.metrics => metrics w q.exchange

/-- The process with its suspended requests, in the order they were suspended. -/
structure Process where
  world : World
  pending : List Pending

/-- The process right after start-up, with no request in flight. -/
def Process.init : Process :=
  { world := World.init, pending := [] }

/-- What the event loop runs next: the arrival of a request, or the resumption of the
suspended request at position `index`. -/
inductive Event : Type
  | request (r : Request) (env : Env)
  | resume (index : Nat)

/-- One turn of the event loop. -/
def Process.step (BACKEND_URL : String) (p : Process) : Event → Process
  | Event.request r env =>
    match arrive BACKEND_URL p.world r env with
    | (w, Progress.responded _) => { world := w, pending := p.pending }
    | (w, Progress.suspended q) => { world := w, pending := p.pending ++ [q] }
  | Event.resume index =>
    match p.pending[index]? with
    | some q =>
      { world := (settle BACKEND_URL p.world q).1, pending := p.pending.eraseIdx index }
    | none => p

/-- The process after a sequence of turns of the event loop. -/
def Process.exec (BACKEND_URL : String) (p : Process) : List Event → Process
  | [] => p
  | e :: rest => Process.exec BACKEND_URL (p.step BACKEND_URL e) rest

/-- The spans a suspended request still has to finish: its root span and, for a downstream
call in flight, its child span. -/
def Pending.spans (q : Pending) : List Nat :=
  q.exchange.span.toList ++
    match q.continuation with
    | Continuation.products childSpan => [childSpan]
    | Continuation.slow childSpan => [childSpan]
    | _ => []

/-- The child span a suspended request has open, if it has one. -/
def Pending.childSpan (q : Pending) : Option Nat :=
  match q.continuation with
  | Continuation.products childSpan => some childSpan
  | Continuation.slow childSpan => some childSpan
  | _ => none

/-- A suspended request is well formed: its `req.span` is the span the replaced `res.send`
will finish, and the child span of its downstream call in flight, if any, is the span
created right after that root span. -/
def Pending.Hooked (q : Pending) : Prop :=
  ∃ root, q.exchange.span = some root ∧
    q.exchange.send.map SendHook.span = some root ∧
    (q.childSpan = none ∨ q.childSpan = some (root + 1))

/-- The invariant of the event loop: the request metrics agree, no span was touched after
its finish, no span was finished twice, the suspended requests are well formed, their
spans exist and are not finished, no two of them share a span, and every child span ever
started is either finished exactly once or the child span of a suspended request. -/
structure Process.Valid (p : Process) : Prop where
  sync : MetricsInSync p.world
  late : lateMutations p.world.tracer = 0
  once : ∀ id, finishCount id p.world.tracer ≤ 1
  hooked : ∀ q ∈ p.pending, q.Hooked
  pendingOpen : ∀ q ∈ p.pending, ∀ id ∈ q.spans,
    finishCount id p.world.tracer = 0 ∧ id < freshId p.world.tracer
  apart : p.pending.Pairwise fun q q2 => ∀ a ∈ q.spans, ∀ b ∈ q2.spans, a ≠ b
  children : ∀ c ∈ childSpans p.world.tracer,
    finishCount c p.world.tracer = 1 ∨ ∃ q ∈ p.pending, q.childSpan = some c

/-! ## Sample inputs -/

/-- A request that carries no upstream trace context. -/
def sampleRequest (method path : String) : Request :=
  { method := method, path := path, url := path, parentSpanContext := none }

/-- An environment in which no static file matches, the body parses, 250 ms pass between
arrival and `res.send`, and the downstream service behaves as `reply`. -/
def sampleEnv (reply : BackendReply) : Env :=
  { staticOutcome := StaticOutcome.fallthrough
    bodyError := none
    requestId := "6f1c2a9e-0b7d-4c58-9a41-3d2e8f5b7c10"
    newTraceId := "4bf92f3577b34da6"
    startTime := 1700000000000
    sendTime := 1700000000250
    isoTime := "2023-11-14T22:13:20.250Z"
    backend := reply
    errorStack := "Error\n    at server.js"
    sendFile := Except.ok { statusCode := 200, body := Body.file "public/index.html" } }

/-- A downstream reply with a list of two products after 20 ms. -/
def sampleProducts : BackendReply :=
  BackendReply.responds 20 200
    (Json.arr [Json.obj [("id", Json.num 1)], Json.obj [("id", Json.num 2)]])

/-- An environment in which `express.static` finds a file for the request. -/
def sampleStaticEnv : Env :=
  { sampleEnv sampleProducts with
    staticOutcome := StaticOutcome.served
      { statusCode := 200, body := Body.file "public/style.css" } }

/-- An environment in which `express.json()` rejects the body with the given message. -/
def sampleBodyErrorEnv (message : String) : Env :=
  { sampleEnv sampleProducts with
    bodyError := some { message := message, stack := "SyntaxError\n    at JSON.parse" } }

/-- An exchange as the tracing middleware leaves it for a request `GET /health` whose root
span is the span 0. -/
def sampleExchange : Exchange :=
  { method := "GET", path := "/health", url := "/health", span := some 0,
    requestId := some "6f1c2a9e-0b7d-4c58-9a41-3d2e8f5b7c10",
    traceId := some "4bf92f3577b34da6", statusCode := 200,
    send := some { startTime := 1700000000000,
                   requestId := "6f1c2a9e-0b7d-4c58-9a41-3d2e8f5b7c10", span := 0 } }

/-! ## The tracer: fresh spans and sequences of calls -/

theorem id_lt_freshId (events : List SpanEvent) (e : SpanEvent) (h : e ∈ events) :
    e.id < freshId events := by
  induction events with
  | nil => cases h
  | cons a rest ih =>
    simp only [freshId]
    rcases List.mem_cons.mp h with h1 | h1
    · subst h1; omega
    · have := ih h1; omega

theorem freshId_append (a b : List SpanEvent) :
    freshId (a ++ b) = max (freshId a) (freshId b) := by
  induction a with
  | nil => simp [freshId]
  | cons e rest ih =>
    show max (e.id + 1) (freshId (rest ++ b)) = max (max (e.id + 1) (freshId rest)) (freshId b)
    rw [ih]; omega

theorem startCount_of_fresh (events : List SpanEvent) (id : Nat) (h : freshId events ≤ id) :
    startCount id events = 0 := by
  unfold startCount
  rw [List.countP_eq_zero]
  intro e he
  have := id_lt_freshId events e he
  cases e <;> simp [SpanEvent.isStartOf, SpanEvent.id] at *
  omega

theorem finishCount_of_fresh (events : List SpanEvent) (id : Nat) (h : freshId events ≤ id) :
    finishCount id events = 0 := by
  unfold finishCount
  rw [List.countP_eq_zero]
  intro e he
  have := id_lt_freshId events e he
  cases e <;> simp [SpanEvent.isFinishOf, SpanEvent.id] at *
  omega

theorem finishCount_append (id : Nat) (a b : List SpanEvent) :
    finishCount id (a ++ b) = finishCount id a + finishCount id b := by
  simp [finishCount]

theorem startCount_append (id : Nat) (a b : List SpanEvent) :
    startCount id (a ++ b) = startCount id a + startCount id b := by
  simp [startCount]

theorem parentOf_append_of_fresh (id : Nat) (old new : List SpanEvent)
    (h : freshId old ≤ id) : parentOf id (old ++ new) = parentOf id new := by
  induction old with
  | nil => rfl
  | cons e rest ih =>
    simp only [freshId] at h
    have h1 : freshId rest ≤ id := by omega
    have h2 : e.id ≠ id := by omega
    cases e with
    | start j n p t =>
      simp only [SpanEvent.id] at h2
      cases p with
      | none => simpa [parentOf] using ih h1
      | some q =>
        cases q with
        | remote c => simpa [parentOf] using ih h1
        | span s => simpa [parentOf, h2] using ih h1
    | setTag j k v => simpa [parentOf] using ih h1
    | log j f => simpa [parentOf] using ih h1
    | finish j => simpa [parentOf] using ih h1

theorem errorAtFinishFrom_append_of_fresh (id : Nat) (current : Bool)
    (old new : List SpanEvent) (h : freshId old ≤ id) :
    errorAtFinishFrom id current (old ++ new) = errorAtFinishFrom id current new := by
  induction old with
  | nil => rfl
  | cons e rest ih =>
    simp only [freshId] at h
    have h1 : freshId rest ≤ id := by omega
    have h2 : e.id ≠ id := by omega
    cases e <;> simp only [SpanEvent.id] at h2 <;>
      simpa [errorAtFinishFrom, h2] using ih h1

theorem not_mem_finishedIds (events : List SpanEvent) (id : Nat) (h : freshId events ≤ id) :
    id ∉ finishedIds events := by
  induction events with
  | nil => simp [finishedIds]
  | cons e rest ih =>
    simp only [freshId] at h
    have h1 : freshId rest ≤ id := by omega
    have h2 : e.id ≠ id := by omega
    cases e <;> simp only [SpanEvent.id] at h2 <;>
      simp [finishedIds, ih h1, Ne.symm h2]

theorem lateMutationsFrom_append (finished : List Nat) (old new : List SpanEvent) :
    lateMutationsFrom finished (old ++ new) =
      lateMutationsFrom finished old + lateMutationsFrom (finishedIds old ++ finished) new := by
  induction old generalizing finished with
  | nil => simp [lateMutationsFrom, finishedIds]
  | cons e rest ih =>
    cases e with
    | start j n p t => simpa [lateMutationsFrom, finishedIds] using ih finished
    | setTag j k v => simp [lateMutationsFrom, finishedIds, ih finished, Nat.add_assoc]
    | log j f => simp [lateMutationsFrom, finishedIds, ih finished, Nat.add_assoc]
    | finish j => simp [lateMutationsFrom, finishedIds, ih (j :: finished)]

theorem lateMutations_append (old new : List SpanEvent) :
    lateMutations (old ++ new) = lateMutations old + lateMutationsFrom (finishedIds old) new := by
  simp [lateMutations, lateMutationsFrom_append]

/-! ## The middleware chain -/

theorem handleRequest_routed (BACKEND_URL : String) (w : World) (r : Request) (env : Env)
    (route : Route) (hstatic : staticResult r env = StaticOutcome.fallthrough)
    (hbody : env.bodyError = none)
    (hroute : dispatch r.method r.path = Dispatch.handler route) :
    handleRequest BACKEND_URL w r env =
      handleRoute BACKEND_URL (tracingMiddleware w (Exchange.ofRequest r) r env).1
        (tracingMiddleware w (Exchange.ofRequest r) r env).2 env route := by
  simp only [handleRequest, hstatic, hbody, hroute]

theorem axiosGet_rejects (timeout : Nat) (stack : String) (reply : BackendReply)
    (h : (∃ afterMs message, reply = BackendReply.networkError afterMs message) ∨
      ∃ delayMs status data, reply = BackendReply.responds delayMs status data ∧
        ((timeout ≠ 0 ∧ timeout ≤ delayMs) ∨ status < 200 ∨ 300 ≤ status)) :
    ∃ error, axiosGet timeout stack reply = Except.error error := by
  rcases h with ⟨a, m, h⟩ | ⟨d, s, data, h, hcase⟩
  · subst h
    simp only [axiosGet]
    split_ifs <;> exact ⟨_, rfl⟩
  · subst h
    simp only [axiosGet]
    split_ifs with h1 h2
    · exact ⟨_, rfl⟩
    · exfalso
      rcases hcase with hc | hc | hc
      · exact h1 hc
      · omega
      · omega
    · exact ⟨_, rfl⟩

theorem axiosGet_resolves (timeout : Nat) (stack : String) (delayMs status : Nat) (data : Json)
    (hdelay : delayMs < timeout) (hstatus : 200 ≤ status ∧ status < 300) :
    axiosGet timeout stack (BackendReply.responds delayMs status data) =
      Except.ok { status := status, data := data } := by
  simp only [axiosGet]
  rw [if_neg (by omega), if_pos hstatus]

theorem isChildStart_remote (id : Nat) (name : String) (ctx : Option SpanContext)
    (tags : List (String × Json)) :
    (SpanEvent.start id name (ctx.map Parent.remote) tags).isChildStart = false := by
  cases ctx <;> rfl

theorem isRootStart_remote (id : Nat) (name : String) (ctx : Option SpanContext)
    (tags : List (String × Json)) :
    (SpanEvent.start id name (ctx.map Parent.remote) tags).isRootStart = true := by
  cases ctx <;> rfl

theorem parentOf_cons_remote (id j : Nat) (name : String) (ctx : Option SpanContext)
    (tags : List (String × Json)) (rest : List SpanEvent) :
    parentOf id (SpanEvent.start j name (ctx.map Parent.remote) tags :: rest) =
      parentOf id rest := by
  cases ctx <;> rfl

theorem startCount_nil (id : Nat) : startCount id [] = 0 := rfl

theorem finishCount_nil (id : Nat) : finishCount id [] = 0 := rfl

theorem startCount_cons (id : Nat) (e : SpanEvent) (rest : List SpanEvent) :
    startCount id (e :: rest) = startCount id rest + if e.isStartOf id = true then 1 else 0 := by
  simp [startCount, List.countP_cons]

theorem finishCount_cons (id : Nat) (e : SpanEvent) (rest : List SpanEvent) :
    finishCount id (e :: rest) = finishCount id rest + if e.isFinishOf id = true then 1 else 0 := by
  simp [finishCount, List.countP_cons]

theorem startCount_fresh_add (events : List SpanEvent) (k : Nat) :
    startCount (freshId events + k) events = 0 :=
  startCount_of_fresh events _ (Nat.le_add_right _ _)

theorem finishCount_fresh_add (events : List SpanEvent) (k : Nat) :
    finishCount (freshId events + k) events = 0 :=
  finishCount_of_fresh events _ (Nat.le_add_right _ _)

theorem startCount_fresh (events : List SpanEvent) :
    startCount (freshId events) events = 0 :=
  startCount_of_fresh events _ (Nat.le_refl _)

theorem finishCount_fresh (events : List SpanEvent) :
    finishCount (freshId events) events = 0 :=
  finishCount_of_fresh events _ (Nat.le_refl _)

theorem parentOf_fresh_add (old new : List SpanEvent) (k : Nat) :
    parentOf (freshId old + k) (old ++ new) = parentOf (freshId old + k) new :=
  parentOf_append_of_fresh _ old new (Nat.le_add_right _ _)

theorem child_span_of_request (BACKEND_URL : String) (w : World) (r : Request) (env : Env)
    (route : Route)
    (hstatic : staticResult r env = StaticOutcome.fallthrough)
    (hbody : env.bodyError = none)
    (hroute : dispatch r.method r.path = Dispatch.handler route)
    (hcall : route = Route.apiProducts ∨ route = Route.apiSlow) :
    childSpans (callsSince w (handleRequest BACKEND_URL w r env).1) = [freshId w.tracer + 1] ∧
    parentOf (freshId w.tracer + 1) (handleRequest BACKEND_URL w r env).1.tracer =
      some (freshId w.tracer) ∧
    startCount (freshId w.tracer + 1) (handleRequest BACKEND_URL w r env).1.tracer = 1 ∧
    finishCount (freshId w.tracer + 1) (handleRequest BACKEND_URL w r env).1.tracer = 1 ∧
    ∃ call, (handleRequest BACKEND_URL w r env).1.axios = w.axios ++ [call] ∧
      call.traceSpan = freshId w.tracer + 1 := by
  rw [handleRequest_routed BACKEND_URL w r env _ hstatic hbody hroute]
  rcases hcall with h | h <;> subst h
  · simp only [handleRoute, apiProducts]
    cases axiosGet 5000 env.errorStack env.backend <;>
      simp [apiProductsBegin, apiProductsResume, tracingMiddleware, resJson, resStatusJson,
        resSend, World.startSpan, World.call, Exchange.ofRequest, callsSince,
        World.log, World.incErrors, World.setTag, World.spanLog, World.finish,
        World.incRequests, World.observeDuration, freshId_append, freshId, SpanEvent.id,
        childSpans, isChildStart_remote, SpanEvent.isChildStart, parentOf_fresh_add,
        parentOf_cons_remote, parentOf, startCount_append, finishCount_append,
        startCount_fresh_add, finishCount_fresh_add, startCount_cons, finishCount_cons,
        startCount_nil, finishCount_nil,
        SpanEvent.isStartOf, SpanEvent.isFinishOf]
  · simp only [handleRoute, apiSlow]
    cases axiosGet 15000 env.errorStack env.backend <;>
      simp [apiSlowBegin, apiSlowResume, tracingMiddleware, resJson, resStatusJson,
        resSend, World.startSpan, World.call, Exchange.ofRequest, callsSince,
        World.log, World.incErrors, World.setTag, World.spanLog, World.finish,
        World.incRequests, World.observeDuration, freshId_append, freshId, SpanEvent.id,
        childSpans, isChildStart_remote, SpanEvent.isChildStart, parentOf_fresh_add,
        parentOf_cons_remote, parentOf, startCount_append, finishCount_append,
        startCount_fresh_add, finishCount_fresh_add, startCount_cons, finishCount_cons,
        startCount_nil, finishCount_nil,
        SpanEvent.isStartOf, SpanEvent.isFinishOf]

theorem resSend_httpRequestsTotal (w : World) (x : Exchange) (env : Env) (data : Body)
    (hook : SendHook) (hsend : x.send = some hook) :
    (resSend w x env data).1.httpRequestsTotal = fun k =>
      if k = (x.method, x.path, toString x.statusCode) then w.httpRequestsTotal k + 1
      else w.httpRequestsTotal k := by
  simp only [resSend, hsend]
  split_ifs <;> rfl

theorem resSend_httpRequestDuration (w : World) (x : Exchange) (env : Env) (data : Body)
    (hook : SendHook) (hsend : x.send = some hook) :
    (resSend w x env data).1.httpRequestDuration = fun k =>
      if k = (x.method, x.path, toString x.statusCode) then
        w.httpRequestDuration k ++ [((env.sendTime - hook.startTime : Int) : ℚ) / 1000]
      else w.httpRequestDuration k := by
  simp only [resSend, hsend]
  split_ifs <;> rfl

theorem resSend_frontendErrorsTotal (w : World) (x : Exchange) (env : Env) (data : Body) :
    (resSend w x env data).1.frontendErrorsTotal = w.frontendErrorsTotal := by
  cases hsend : x.send with
  | none => simp only [resSend, hsend]
  | some hook =>
    simp only [resSend, hsend]
    split_ifs <;> rfl

theorem resSend_unhooked (w : World) (x : Exchange) (env : Env) (data : Body)
    (hsend : x.send = none) : (resSend w x env data).1 = w := by
  simp only [resSend, hsend]

theorem metricsInSync_resSend (w : World) (x : Exchange) (env : Env) (data : Body)
    (h : MetricsInSync w) : MetricsInSync (resSend w x env data).1 := by
  intro l
  have hl := h l
  cases hh : x.send with
  | none => rw [resSend_unhooked w x env data hh]; exact hl
  | some hook =>
    rw [resSend_httpRequestsTotal w x env data hook hh,
      resSend_httpRequestDuration w x env data hook hh]
    simp only [observationCount] at hl ⊢
    split_ifs <;> simp [hl]

theorem interceptor_records (w : World) (x : Exchange) (env : Env) (data : Body)
    (hook : SendHook) (hsend : x.send = some hook) :
     (resSend w x env data).1.httpRequestsTotal (x.method, x.path, toString x.statusCode) =
        w.httpRequestsTotal (x.method, x.path, toString x.statusCode) + 1 ∧
      (resSend w x env data).1.httpRequestDuration (x.method, x.path, toString x.statusCode) =
        w.httpRequestDuration (x.method, x.path, toString x.statusCode) ++
          [((env.sendTime - hook.startTime : Int) : ℚ) / 1000] ∧
      (∀ k, k ≠ (x.method, x.path, toString x.statusCode) →
        (resSend w x env data).1.httpRequestsTotal k = w.httpRequestsTotal k ∧
        (resSend w x env data).1.httpRequestDuration k = w.httpRequestDuration k) ∧
      (resSend w x env data).1.frontendErrorsTotal = w.frontendErrorsTotal := by
  rw [resSend_httpRequestsTotal w x env data hook hsend,
    resSend_httpRequestDuration w x env data hook hsend, resSend_frontendErrorsTotal]
  refine ⟨by simp, by simp, ?_, rfl⟩
  intro k hk
  simp [hk]

theorem metricsInSync_of_eq (w w2 : World) (h : MetricsInSync w)
    (hrequests : w2.httpRequestsTotal = w.httpRequestsTotal)
    (hdurations : w2.httpRequestDuration = w.httpRequestDuration) : MetricsInSync w2 := by
  intro l
  rw [hrequests, hdurations]
  exact h l

theorem metricsInSync_globalErrorHandler (w : World) (x : Exchange) (env : Env)
    (err : JsError) (h : MetricsInSync w) :
    MetricsInSync (globalErrorHandler w x env err).1 := by
  unfold globalErrorHandler resStatusJson
  apply metricsInSync_resSend
  cases x.span <;> refine metricsInSync_of_eq w _ h ?_ ?_ <;>
        simp only [World.log, World.incErrors, World.finish, World.spanLog, World.setTag,
          World.call, World.startSpan, apiProductsBegin, apiSlowBegin, tracingMiddleware]

theorem metricsInSync_handleRoute (BACKEND_URL : String) (w : World) (x : Exchange)
    (env : Env) (route : Route) (h : MetricsInSync w) :
    MetricsInSync (handleRoute BACKEND_URL w x env route).1 := by
  cases route with
  | root =>
    simp only [handleRoute, root]
    cases env.sendFile with
    | ok response => exact h
    | error err => exact metricsInSync_globalErrorHandler w x env err h
  | health =>
    simp only [handleRoute, health, resStatusJson]
    apply metricsInSync_resSend
    refine metricsInSync_of_eq w _ h ?_ ?_ <;>
        simp only [World.log, World.incErrors, World.finish, World.spanLog, World.setTag,
          World.call, World.startSpan, apiProductsBegin, apiSlowBegin, tracingMiddleware]
  | metrics => exact h
  | apiProducts =>
    simp only [handleRoute, apiProducts]
    cases axiosGet 5000 env.errorStack env.backend <;>
      simp only [apiProductsResume, resJson, resStatusJson] <;>
      apply metricsInSync_resSend <;> refine metricsInSync_of_eq w _ h ?_ ?_ <;>
        simp only [World.log, World.incErrors, World.finish, World.spanLog, World.setTag,
          World.call, World.startSpan, apiProductsBegin, apiSlowBegin, tracingMiddleware]
  | apiSlow =>
    simp only [handleRoute, apiSlow]
    cases axiosGet 15000 env.errorStack env.backend <;>
      simp only [apiSlowResume, resJson, resStatusJson] <;>
      apply metricsInSync_resSend <;> refine metricsInSync_of_eq w _ h ?_ ?_ <;>
        simp only [World.log, World.incErrors, World.finish, World.spanLog, World.setTag,
          World.call, World.startSpan, apiProductsBegin, apiSlowBegin, tracingMiddleware]
  | apiError =>
    simp only [handleRoute, apiError]
    cases x.span with
    | none =>
      apply metricsInSync_globalErrorHandler
      refine metricsInSync_of_eq w _ h ?_ ?_ <;>
        simp only [World.log, World.incErrors, World.finish, World.spanLog, World.setTag,
          World.call, World.startSpan, apiProductsBegin, apiSlowBegin, tracingMiddleware]
    | some span =>
      simp only [resStatusJson]
      apply metricsInSync_resSend
      refine metricsInSync_of_eq w _ h ?_ ?_ <;>
        simp only [World.log, World.incErrors, World.finish, World.spanLog, World.setTag,
          World.call, World.startSpan, apiProductsBegin, apiSlowBegin, tracingMiddleware]

theorem metricsInSync_handleRequest (BACKEND_URL : String) (w : World) (r : Request)
    (env : Env) (h : MetricsInSync w) :
    MetricsInSync (handleRequest BACKEND_URL w r env).1 := by
  unfold handleRequest
  cases staticResult r env with
  | served response => exact h
  | failed err => exact metricsInSync_globalErrorHandler _ _ env err h
  | fallthrough =>
    cases env.bodyError with
    | some err => exact metricsInSync_globalErrorHandler _ _ env err h
    | none =>
      cases dispatch r.method r.path with
      | handler route =>
        apply metricsInSync_handleRoute
        refine metricsInSync_of_eq w _ h ?_ ?_ <;>
        simp only [World.log, World.incErrors, World.finish, World.spanLog, World.setTag,
          World.call, World.startSpan, apiProductsBegin, apiSlowBegin, tracingMiddleware]
      | options =>
        simp only []
        apply metricsInSync_resSend
        refine metricsInSync_of_eq w _ h ?_ ?_ <;>
        simp only [World.log, World.incErrors, World.finish, World.spanLog, World.setTag,
          World.call, World.startSpan, apiProductsBegin, apiSlowBegin, tracingMiddleware]
      | notFound => exact h

theorem metricsInSync_run (BACKEND_URL : String) (inputs : List (Request × Env)) (w : World)
    (h : MetricsInSync w) : MetricsInSync (run BACKEND_URL w inputs) := by
  induction inputs generalizing w with
  | nil => exact h
  | cons input rest ih =>
    exact ih _ (metricsInSync_handleRequest BACKEND_URL w input.1 input.2 h)

theorem metricsInSync_init : MetricsInSync World.init := by
  intro l
  rfl

theorem rootSpans_cons (e : SpanEvent) (rest : List SpanEvent) :
    rootSpans (e :: rest) = if e.isRootStart = true then e.id :: rootSpans rest
      else rootSpans rest := by
  simp only [rootSpans, List.filter_cons]
  split_ifs <;> rfl

theorem rootSpans_nil : rootSpans [] = [] := rfl

theorem instrumented_via_send (BACKEND_URL : String) (w : World) (r : Request) (env : Env)
    (hstatic : staticResult r env = StaticOutcome.fallthrough)
    (hbody : env.bodyError = none)
    (hsend : dispatch r.method r.path = Dispatch.handler Route.health ∨
      dispatch r.method r.path = Dispatch.handler Route.apiProducts ∨
      dispatch r.method r.path = Dispatch.handler Route.apiSlow ∨
      dispatch r.method r.path = Dispatch.handler Route.apiError ∨
      (dispatch r.method r.path = Dispatch.handler Route.root ∧
        ∃ err, env.sendFile = Except.error err)) :
    rootSpans (callsSince w (handleRequest BACKEND_URL w r env).1) = [freshId w.tracer] ∧
    startCount (freshId w.tracer) (handleRequest BACKEND_URL w r env).1.tracer = 1 ∧
    finishCount (freshId w.tracer) (handleRequest BACKEND_URL w r env).1.tracer = 1 ∧
    (handleRequest BACKEND_URL w r env).1.httpRequestsTotal
        (r.method, r.path, toString (handleRequest BACKEND_URL w r env).2.statusCode) =
      w.httpRequestsTotal
        (r.method, r.path, toString (handleRequest BACKEND_URL w r env).2.statusCode) + 1 ∧
    observationCount ((handleRequest BACKEND_URL w r env).1.httpRequestDuration
        (r.method, r.path, toString (handleRequest BACKEND_URL w r env).2.statusCode)) =
      observationCount (w.httpRequestDuration
        (r.method, r.path, toString (handleRequest BACKEND_URL w r env).2.statusCode)) + 1 ∧
    ∀ k, k ≠ (r.method, r.path, toString (handleRequest BACKEND_URL w r env).2.statusCode) →
      (handleRequest BACKEND_URL w r env).1.httpRequestsTotal k = w.httpRequestsTotal k ∧
      (handleRequest BACKEND_URL w r env).1.httpRequestDuration k =
        w.httpRequestDuration k := by
  rcases hsend with h | h | h | h | ⟨h, err, herr⟩ <;>
    rw [handleRequest_routed BACKEND_URL w r env _ hstatic hbody h]
  · simp [handleRoute, health, tracingMiddleware, resJson, resStatusJson,
      resSend, World.startSpan, World.call, Exchange.ofRequest, callsSince,
      World.log, World.incErrors, World.setTag, World.spanLog, World.finish,
      World.incRequests, World.observeDuration, freshId_append, freshId, SpanEvent.id,
      rootSpans_cons, rootSpans_nil, isRootStart_remote, SpanEvent.isRootStart,
      startCount_append, finishCount_append,
      startCount_fresh, finishCount_fresh, startCount_cons, finishCount_cons,
      startCount_nil, finishCount_nil, observationCount,
      SpanEvent.isStartOf, SpanEvent.isFinishOf]
  · simp only [handleRoute, apiProducts]
    cases axiosGet 5000 env.errorStack env.backend <;>
    simp [handleRoute, apiProductsBegin, apiProductsResume, tracingMiddleware, resJson, resStatusJson,
      resSend, World.startSpan, World.call, Exchange.ofRequest, callsSince,
      World.log, World.incErrors, World.setTag, World.spanLog, World.finish,
      World.incRequests, World.observeDuration, freshId_append, freshId, SpanEvent.id,
      rootSpans_cons, rootSpans_nil, isRootStart_remote, SpanEvent.isRootStart,
      startCount_append, finishCount_append,
      startCount_fresh, finishCount_fresh, startCount_cons, finishCount_cons,
      startCount_nil, finishCount_nil, observationCount,
      SpanEvent.isStartOf, SpanEvent.isFinishOf]
  · simp only [handleRoute, apiSlow]
    cases axiosGet 15000 env.errorStack env.backend <;>
    simp [handleRoute, apiSlowBegin, apiSlowResume, tracingMiddleware, resJson, resStatusJson,
      resSend, World.startSpan, World.call, Exchange.ofRequest, callsSince,
      World.log, World.incErrors, World.setTag, World.spanLog, World.finish,
      World.incRequests, World.observeDuration, freshId_append, freshId, SpanEvent.id,
      rootSpans_cons, rootSpans_nil, isRootStart_remote, SpanEvent.isRootStart,
      startCount_append, finishCount_append,
      startCount_fresh, finishCount_fresh, startCount_cons, finishCount_cons,
      startCount_nil, finishCount_nil, observationCount,
      SpanEvent.isStartOf, SpanEvent.isFinishOf]
  · simp [handleRoute, apiError, tracingMiddleware, resJson, resStatusJson,
      resSend, World.startSpan, World.call, Exchange.ofRequest, callsSince,
      World.log, World.incErrors, World.setTag, World.spanLog, World.finish,
      World.incRequests, World.observeDuration, freshId_append, freshId, SpanEvent.id,
      rootSpans_cons, rootSpans_nil, isRootStart_remote, SpanEvent.isRootStart,
      startCount_append, finishCount_append,
      startCount_fresh, finishCount_fresh, startCount_cons, finishCount_cons,
      startCount_nil, finishCount_nil, observationCount,
      SpanEvent.isStartOf, SpanEvent.isFinishOf]
  · simp [handleRoute, root, herr, globalErrorHandler, tracingMiddleware, resJson, resStatusJson,
      resSend, World.startSpan, World.call, Exchange.ofRequest, callsSince,
      World.log, World.incErrors, World.setTag, World.spanLog, World.finish,
      World.incRequests, World.observeDuration, freshId_append, freshId, SpanEvent.id,
      rootSpans_cons, rootSpans_nil, isRootStart_remote, SpanEvent.isRootStart,
      startCount_append, finishCount_append,
      startCount_fresh, finishCount_fresh, startCount_cons, finishCount_cons,
      startCount_nil, finishCount_nil, observationCount,
      SpanEvent.isStartOf, SpanEvent.isFinishOf]

theorem uninstrumented_before_middleware (BACKEND_URL : String) (w : World) (r : Request)
    (env : Env)
    (hearly : (∃ response, staticResult r env = StaticOutcome.served response) ∨
      (∃ err, staticResult r env = StaticOutcome.failed err) ∨
      (staticResult r env = StaticOutcome.fallthrough ∧ ∃ err, env.bodyError = some err)) :
    (handleRequest BACKEND_URL w r env).1.tracer = w.tracer ∧
    (handleRequest BACKEND_URL w r env).1.httpRequestsTotal = w.httpRequestsTotal ∧
    (handleRequest BACKEND_URL w r env).1.httpRequestDuration = w.httpRequestDuration := by
  rcases hearly with ⟨response, h⟩ | ⟨err, h⟩ | ⟨h, err, herr⟩
  · simp [handleRequest, h]
  · simp [handleRequest, h, globalErrorHandler, resStatusJson, resSend, Exchange.ofRequest,
      World.log, World.incErrors]
  · simp [handleRequest, h, herr, globalErrorHandler, resStatusJson, resSend,
      Exchange.ofRequest, World.log, World.incErrors]

theorem errorAtFinish_fresh (old new : List SpanEvent) :
    errorAtFinish (freshId old) (old ++ new) = errorAtFinishFrom (freshId old) false new :=
  errorAtFinishFrom_append_of_fresh _ false old new (Nat.le_refl _)

theorem errorAtFinish_fresh_add (old new : List SpanEvent) (k : Nat) :
    errorAtFinish (freshId old + k) (old ++ new) =
      errorAtFinishFrom (freshId old + k) false new :=
  errorAtFinishFrom_append_of_fresh _ false old new (Nat.le_add_right _ _)

theorem errorAtFinish_fresh_nil (old : List SpanEvent) :
    errorAtFinish (freshId old) old = none := by
  have h := errorAtFinish_fresh old []
  rw [List.append_nil] at h
  rw [h]
  rfl

theorem errorAtFinishFrom_cons_remote (id j : Nat) (current : Bool) (name : String)
    (ctx : Option SpanContext) (tags : List (String × Json)) (rest : List SpanEvent) :
    errorAtFinishFrom id current
        (SpanEvent.start j name (ctx.map Parent.remote) tags :: rest) =
      errorAtFinishFrom id (if j = id then errorIn false tags else current) rest := by
  rfl

theorem freshId_not_mem_finishedIds (events : List SpanEvent) :
    freshId events ∉ finishedIds events :=
  not_mem_finishedIds events _ (Nat.le_refl _)

theorem freshId_add_not_mem_finishedIds (events : List SpanEvent) (k : Nat) :
    freshId events + k ∉ finishedIds events :=
  not_mem_finishedIds events _ (Nat.le_add_right _ _)

theorem error_tag_root (BACKEND_URL : String) (w : World) (r : Request) (env : Env)
    (flag : Bool)
    (h : errorAtFinish (freshId w.tracer) (handleRequest BACKEND_URL w r env).1.tracer =
      some flag) :
    (flag = true ↔ 400 ≤ (handleRequest BACKEND_URL w r env).2.statusCode) := by
  revert h
  unfold handleRequest
  cases staticResult r env with
  | served response => simp [errorAtFinish_fresh_nil]
  | failed err =>
    simp [globalErrorHandler, resStatusJson, resSend, Exchange.ofRequest,
      World.log, World.incErrors, errorAtFinish_fresh_nil]
  | fallthrough =>
    cases env.bodyError with
    | some err =>
      simp [globalErrorHandler, resStatusJson, resSend, Exchange.ofRequest,
        World.log, World.incErrors, errorAtFinish_fresh_nil]
    | none =>
      cases dispatch r.method r.path with
      | handler route =>
        cases route with
        | root =>
          simp only [handleRoute, root]
          cases env.sendFile <;> simp [handleRoute, root, tracingMiddleware, resJson, resStatusJson, resEnd,
            resSend, World.startSpan, World.call, Exchange.ofRequest, globalErrorHandler,
            World.log, World.incErrors, World.setTag, World.spanLog, World.finish,
            World.incRequests, World.observeDuration, errorAtFinish_fresh,
            errorAtFinishFrom_cons_remote, errorAtFinishFrom, errorIn, freshId_append,
            freshId, SpanEvent.id, Tags.ERROR, Tags.HTTP_STATUS_CODE, Tags.HTTP_URL,
            Tags.HTTP_METHOD, Tags.SPAN_KIND, Json.isTrue, eq_comm]
        | health => simp [handleRoute, health, tracingMiddleware, resJson, resStatusJson, resEnd,
            resSend, World.startSpan, World.call, Exchange.ofRequest, globalErrorHandler,
            World.log, World.incErrors, World.setTag, World.spanLog, World.finish,
            World.incRequests, World.observeDuration, errorAtFinish_fresh,
            errorAtFinishFrom_cons_remote, errorAtFinishFrom, errorIn, freshId_append,
            freshId, SpanEvent.id, Tags.ERROR, Tags.HTTP_STATUS_CODE, Tags.HTTP_URL,
            Tags.HTTP_METHOD, Tags.SPAN_KIND, Json.isTrue, eq_comm]
        | metrics => simp [handleRoute, metrics, tracingMiddleware, resJson, resStatusJson, resEnd,
            resSend, World.startSpan, World.call, Exchange.ofRequest, globalErrorHandler,
            World.log, World.incErrors, World.setTag, World.spanLog, World.finish,
            World.incRequests, World.observeDuration, errorAtFinish_fresh,
            errorAtFinishFrom_cons_remote, errorAtFinishFrom, errorIn, freshId_append,
            freshId, SpanEvent.id, Tags.ERROR, Tags.HTTP_STATUS_CODE, Tags.HTTP_URL,
            Tags.HTTP_METHOD, Tags.SPAN_KIND, Json.isTrue, eq_comm]
        | apiProducts =>
          simp only [handleRoute, apiProducts]
          cases axiosGet 5000 env.errorStack env.backend <;>
            simp [handleRoute, apiProductsBegin, apiProductsResume, tracingMiddleware, resJson, resStatusJson, resEnd,
            resSend, World.startSpan, World.call, Exchange.ofRequest, globalErrorHandler,
            World.log, World.incErrors, World.setTag, World.spanLog, World.finish,
            World.incRequests, World.observeDuration, errorAtFinish_fresh,
            errorAtFinishFrom_cons_remote, errorAtFinishFrom, errorIn, freshId_append,
            freshId, SpanEvent.id, Tags.ERROR, Tags.HTTP_STATUS_CODE, Tags.HTTP_URL,
            Tags.HTTP_METHOD, Tags.SPAN_KIND, Json.isTrue, eq_comm]
        | apiSlow =>
          simp only [handleRoute, apiSlow]
          cases axiosGet 15000 env.errorStack env.backend <;>
            simp [handleRoute, apiSlowBegin, apiSlowResume, tracingMiddleware, resJson, resStatusJson, resEnd,
            resSend, World.startSpan, World.call, Exchange.ofRequest, globalErrorHandler,
            World.log, World.incErrors, World.setTag, World.spanLog, World.finish,
            World.incRequests, World.observeDuration, errorAtFinish_fresh,
            errorAtFinishFrom_cons_remote, errorAtFinishFrom, errorIn, freshId_append,
            freshId, SpanEvent.id, Tags.ERROR, Tags.HTTP_STATUS_CODE, Tags.HTTP_URL,
            Tags.HTTP_METHOD, Tags.SPAN_KIND, Json.isTrue, eq_comm]
        | apiError => simp [handleRoute, apiError, tracingMiddleware, resJson, resStatusJson, resEnd,
            resSend, World.startSpan, World.call, Exchange.ofRequest, globalErrorHandler,
            World.log, World.incErrors, World.setTag, World.spanLog, World.finish,
            World.incRequests, World.observeDuration, errorAtFinish_fresh,
            errorAtFinishFrom_cons_remote, errorAtFinishFrom, errorIn, freshId_append,
            freshId, SpanEvent.id, Tags.ERROR, Tags.HTTP_STATUS_CODE, Tags.HTTP_URL,
            Tags.HTTP_METHOD, Tags.SPAN_KIND, Json.isTrue, eq_comm]
      | options => simp [handleRoute, health, tracingMiddleware, resJson, resStatusJson, resEnd,
            resSend, World.startSpan, World.call, Exchange.ofRequest, globalErrorHandler,
            World.log, World.incErrors, World.setTag, World.spanLog, World.finish,
            World.incRequests, World.observeDuration, errorAtFinish_fresh,
            errorAtFinishFrom_cons_remote, errorAtFinishFrom, errorIn, freshId_append,
            freshId, SpanEvent.id, Tags.ERROR, Tags.HTTP_STATUS_CODE, Tags.HTTP_URL,
            Tags.HTTP_METHOD, Tags.SPAN_KIND, Json.isTrue, eq_comm]
      | notFound => simp [handleRoute, health, tracingMiddleware, resJson, resStatusJson, resEnd,
            resSend, World.startSpan, World.call, Exchange.ofRequest, globalErrorHandler,
            World.log, World.incErrors, World.setTag, World.spanLog, World.finish,
            World.incRequests, World.observeDuration, errorAtFinish_fresh,
            errorAtFinishFrom_cons_remote, errorAtFinishFrom, errorIn, freshId_append,
            freshId, SpanEvent.id, Tags.ERROR, Tags.HTTP_STATUS_CODE, Tags.HTTP_URL,
            Tags.HTTP_METHOD, Tags.SPAN_KIND, Json.isTrue, eq_comm]

theorem error_tag_root_sent (BACKEND_URL : String) (w : World) (r : Request) (env : Env)
    (hstatic : staticResult r env = StaticOutcome.fallthrough)
    (hbody : env.bodyError = none)
    (hsend : dispatch r.method r.path = Dispatch.handler Route.health ∨
      dispatch r.method r.path = Dispatch.handler Route.apiProducts ∨
      dispatch r.method r.path = Dispatch.handler Route.apiSlow ∨
      dispatch r.method r.path = Dispatch.handler Route.apiError ∨
      (dispatch r.method r.path = Dispatch.handler Route.root ∧
        ∃ err, env.sendFile = Except.error err)) :
    ∃ flag, errorAtFinish (freshId w.tracer) (handleRequest BACKEND_URL w r env).1.tracer =
      some flag := by
  rcases hsend with h | h | h | h | ⟨h, err, herr⟩ <;>
    rw [handleRequest_routed BACKEND_URL w r env _ hstatic hbody h]
  · simp [handleRoute, health, tracingMiddleware, resJson, resStatusJson, resEnd,
      resSend, World.startSpan, World.call, Exchange.ofRequest, globalErrorHandler,
      World.log, World.incErrors, World.setTag, World.spanLog, World.finish,
      World.incRequests, World.observeDuration, errorAtFinish_fresh, errorAtFinish_fresh_add,
      errorAtFinishFrom_cons_remote, errorAtFinishFrom, errorIn, freshId_append,
      freshId, SpanEvent.id, Tags.ERROR, Tags.HTTP_STATUS_CODE, Tags.HTTP_URL,
      Tags.HTTP_METHOD, Tags.SPAN_KIND, Json.isTrue, failed]
  · simp only [handleRoute, apiProducts]
    cases axiosGet 5000 env.errorStack env.backend <;>
    simp [handleRoute, apiProductsBegin, apiProductsResume, tracingMiddleware, resJson, resStatusJson, resEnd,
      resSend, World.startSpan, World.call, Exchange.ofRequest, globalErrorHandler,
      World.log, World.incErrors, World.setTag, World.spanLog, World.finish,
      World.incRequests, World.observeDuration, errorAtFinish_fresh, errorAtFinish_fresh_add,
      errorAtFinishFrom_cons_remote, errorAtFinishFrom, errorIn, freshId_append,
      freshId, SpanEvent.id, Tags.ERROR, Tags.HTTP_STATUS_CODE, Tags.HTTP_URL,
      Tags.HTTP_METHOD, Tags.SPAN_KIND, Json.isTrue, failed]
  · simp only [handleRoute, apiSlow]
    cases axiosGet 15000 env.errorStack env.backend <;>
    simp [handleRoute, apiSlowBegin, apiSlowResume, tracingMiddleware, resJson, resStatusJson, resEnd,
      resSend, World.startSpan, World.call, Exchange.ofRequest, globalErrorHandler,
      World.log, World.incErrors, World.setTag, World.spanLog, World.finish,
      World.incRequests, World.observeDuration, errorAtFinish_fresh, errorAtFinish_fresh_add,
      errorAtFinishFrom_cons_remote, errorAtFinishFrom, errorIn, freshId_append,
      freshId, SpanEvent.id, Tags.ERROR, Tags.HTTP_STATUS_CODE, Tags.HTTP_URL,
      Tags.HTTP_METHOD, Tags.SPAN_KIND, Json.isTrue, failed]
  · simp [handleRoute, apiError, tracingMiddleware, resJson, resStatusJson, resEnd,
      resSend, World.startSpan, World.call, Exchange.ofRequest, globalErrorHandler,
      World.log, World.incErrors, World.setTag, World.spanLog, World.finish,
      World.incRequests, World.observeDuration, errorAtFinish_fresh, errorAtFinish_fresh_add,
      errorAtFinishFrom_cons_remote, errorAtFinishFrom, errorIn, freshId_append,
      freshId, SpanEvent.id, Tags.ERROR, Tags.HTTP_STATUS_CODE, Tags.HTTP_URL,
      Tags.HTTP_METHOD, Tags.SPAN_KIND, Json.isTrue, failed]
  · simp [handleRoute, root, herr, tracingMiddleware, resJson, resStatusJson, resEnd,
      resSend, World.startSpan, World.call, Exchange.ofRequest, globalErrorHandler,
      World.log, World.incErrors, World.setTag, World.spanLog, World.finish,
      World.incRequests, World.observeDuration, errorAtFinish_fresh, errorAtFinish_fresh_add,
      errorAtFinishFrom_cons_remote, errorAtFinishFrom, errorIn, freshId_append,
      freshId, SpanEvent.id, Tags.ERROR, Tags.HTTP_STATUS_CODE, Tags.HTTP_URL,
      Tags.HTTP_METHOD, Tags.SPAN_KIND, Json.isTrue, failed]

theorem error_tag_child (BACKEND_URL : String) (w : World) (r : Request) (env : Env)
    (hstatic : staticResult r env = StaticOutcome.fallthrough)
    (hbody : env.bodyError = none) :
    (dispatch r.method r.path = Dispatch.handler Route.apiProducts →
      errorAtFinish (freshId w.tracer + 1) (handleRequest BACKEND_URL w r env).1.tracer =
        some (failed (axiosGet 5000 env.errorStack env.backend))) ∧
    (dispatch r.method r.path = Dispatch.handler Route.apiSlow →
      errorAtFinish (freshId w.tracer + 1) (handleRequest BACKEND_URL w r env).1.tracer =
        some (failed (axiosGet 15000 env.errorStack env.backend))) := by
  constructor <;> intro h <;>
    rw [handleRequest_routed BACKEND_URL w r env _ hstatic hbody h]
  · simp only [handleRoute, apiProducts]
    cases axiosGet 5000 env.errorStack env.backend <;>
    simp [handleRoute, apiProductsBegin, apiProductsResume, tracingMiddleware, resJson, resStatusJson, resEnd,
      resSend, World.startSpan, World.call, Exchange.ofRequest, globalErrorHandler,
      World.log, World.incErrors, World.setTag, World.spanLog, World.finish,
      World.incRequests, World.observeDuration, errorAtFinish_fresh, errorAtFinish_fresh_add,
      errorAtFinishFrom_cons_remote, errorAtFinishFrom, errorIn, freshId_append,
      freshId, SpanEvent.id, Tags.ERROR, Tags.HTTP_STATUS_CODE, Tags.HTTP_URL,
      Tags.HTTP_METHOD, Tags.SPAN_KIND, Json.isTrue, failed]
  · simp only [handleRoute, apiSlow]
    cases axiosGet 15000 env.errorStack env.backend <;>
    simp [handleRoute, apiSlowBegin, apiSlowResume, tracingMiddleware, resJson, resStatusJson, resEnd,
      resSend, World.startSpan, World.call, Exchange.ofRequest, globalErrorHandler,
      World.log, World.incErrors, World.setTag, World.spanLog, World.finish,
      World.incRequests, World.observeDuration, errorAtFinish_fresh, errorAtFinish_fresh_add,
      errorAtFinishFrom_cons_remote, errorAtFinishFrom, errorIn, freshId_append,
      freshId, SpanEvent.id, Tags.ERROR, Tags.HTTP_STATUS_CODE, Tags.HTTP_URL,
      Tags.HTTP_METHOD, Tags.SPAN_KIND, Json.isTrue, failed]

theorem lateMutations_handleRequest (BACKEND_URL : String) (w : World) (r : Request)
    (env : Env) :
    lateMutations (handleRequest BACKEND_URL w r env).1.tracer = lateMutations w.tracer := by
  unfold handleRequest
  cases staticResult r env with
  | served response => rfl
  | failed err => simp [handleRoute, health, tracingMiddleware, resJson, resStatusJson, resEnd,
      resSend, World.startSpan, World.call, Exchange.ofRequest, globalErrorHandler,
      World.log, World.incErrors, World.setTag, World.spanLog, World.finish,
      World.incRequests, World.observeDuration, lateMutations_append, lateMutationsFrom,
      freshId_not_mem_finishedIds, freshId_add_not_mem_finishedIds, freshId_append,
      freshId, SpanEvent.id]
  | fallthrough =>
    cases env.bodyError with
    | some err => simp [handleRoute, health, tracingMiddleware, resJson, resStatusJson, resEnd,
      resSend, World.startSpan, World.call, Exchange.ofRequest, globalErrorHandler,
      World.log, World.incErrors, World.setTag, World.spanLog, World.finish,
      World.incRequests, World.observeDuration, lateMutations_append, lateMutationsFrom,
      freshId_not_mem_finishedIds, freshId_add_not_mem_finishedIds, freshId_append,
      freshId, SpanEvent.id]
    | none =>
      cases dispatch r.method r.path with
      | handler route =>
        cases route with
        | root =>
          simp only [handleRoute, root]
          cases env.sendFile <;> simp [handleRoute, root, tracingMiddleware, resJson, resStatusJson, resEnd,
      resSend, World.startSpan, World.call, Exchange.ofRequest, globalErrorHandler,
      World.log, World.incErrors, World.setTag, World.spanLog, World.finish,
      World.incRequests, World.observeDuration, lateMutations_append, lateMutationsFrom,
      freshId_not_mem_finishedIds, freshId_add_not_mem_finishedIds, freshId_append,
      freshId, SpanEvent.id]
        | health => simp [handleRoute, health, tracingMiddleware, resJson, resStatusJson, resEnd,
      resSend, World.startSpan, World.call, Exchange.ofRequest, globalErrorHandler,
      World.log, World.incErrors, World.setTag, World.spanLog, World.finish,
      World.incRequests, World.observeDuration, lateMutations_append, lateMutationsFrom,
      freshId_not_mem_finishedIds, freshId_add_not_mem_finishedIds, freshId_append,
      freshId, SpanEvent.id]
        | metrics => simp [handleRoute, metrics, tracingMiddleware, resJson, resStatusJson, resEnd,
      resSend, World.startSpan, World.call, Exchange.ofRequest, globalErrorHandler,
      World.log, World.incErrors, World.setTag, World.spanLog, World.finish,
      World.incRequests, World.observeDuration, lateMutations_append, lateMutationsFrom,
      freshId_not_mem_finishedIds, freshId_add_not_mem_finishedIds, freshId_append,
      freshId, SpanEvent.id]
        | apiProducts =>
          simp only [handleRoute, apiProducts]
          cases axiosGet 5000 env.errorStack env.backend <;>
            simp [handleRoute, apiProductsBegin, apiProductsResume, tracingMiddleware, resJson, resStatusJson, resEnd,
      resSend, World.startSpan, World.call, Exchange.ofRequest, globalErrorHandler,
      World.log, World.incErrors, World.setTag, World.spanLog, World.finish,
      World.incRequests, World.observeDuration, lateMutations_append, lateMutationsFrom,
      freshId_not_mem_finishedIds, freshId_add_not_mem_finishedIds, freshId_append,
      freshId, SpanEvent.id]
        | apiSlow =>
          simp only [handleRoute, apiSlow]
          cases axiosGet 15000 env.errorStack env.backend <;>
            simp [handleRoute, apiSlowBegin, apiSlowResume, tracingMiddleware, resJson, resStatusJson, resEnd,
      resSend, World.startSpan, World.call, Exchange.ofRequest, globalErrorHandler,
      World.log, World.incErrors, World.setTag, World.spanLog, World.finish,
      World.incRequests, World.observeDuration, lateMutations_append, lateMutationsFrom,
      freshId_not_mem_finishedIds, freshId_add_not_mem_finishedIds, freshId_append,
      freshId, SpanEvent.id]
        | apiError => simp [handleRoute, apiError, tracingMiddleware, resJson, resStatusJson, resEnd,
      resSend, World.startSpan, World.call, Exchange.ofRequest, globalErrorHandler,
      World.log, World.incErrors, World.setTag, World.spanLog, World.finish,
      World.incRequests, World.observeDuration, lateMutations_append, lateMutationsFrom,
      freshId_not_mem_finishedIds, freshId_add_not_mem_finishedIds, freshId_append,
      freshId, SpanEvent.id]
      | options => simp [handleRoute, health, tracingMiddleware, resJson, resStatusJson, resEnd,
      resSend, World.startSpan, World.call, Exchange.ofRequest, globalErrorHandler,
      World.log, World.incErrors, World.setTag, World.spanLog, World.finish,
      World.incRequests, World.observeDuration, lateMutations_append, lateMutationsFrom,
      freshId_not_mem_finishedIds, freshId_add_not_mem_finishedIds, freshId_append,
      freshId, SpanEvent.id]
      | notFound => simp [handleRoute, health, tracingMiddleware, resJson, resStatusJson, resEnd,
      resSend, World.startSpan, World.call, Exchange.ofRequest, globalErrorHandler,
      World.log, World.incErrors, World.setTag, World.spanLog, World.finish,
      World.incRequests, World.observeDuration, lateMutations_append, lateMutationsFrom,
      freshId_not_mem_finishedIds, freshId_add_not_mem_finishedIds, freshId_append,
      freshId, SpanEvent.id]

theorem lateMutations_run (BACKEND_URL : String) (inputs : List (Request × Env)) (w : World) :
    lateMutations (run BACKEND_URL w inputs).tracer = lateMutations w.tracer := by
  induction inputs generalizing w with
  | nil => rfl
  | cons input rest ih =>
    show lateMutations (run BACKEND_URL (handleRequest BACKEND_URL w input.1 input.2).1 rest).tracer = _
    rw [ih, lateMutations_handleRequest]

theorem apiProducts_contract :
    DownstreamContract Route.apiProducts "/products" 5000 "backend_call_error" := by
  intro BACKEND_URL w r env hstatic hbody hroute
  rw [handleRequest_routed BACKEND_URL w r env _ hstatic hbody hroute]
  simp only [handleRoute, apiProducts]
  cases axiosGet 5000 env.errorStack env.backend <;>
    simp [apiProductsBegin, apiProductsResume, tracingMiddleware, resJson, resStatusJson,
      resSend, World.startSpan, World.call, Exchange.ofRequest, callsSince,
      World.log, World.incErrors, World.setTag, World.spanLog, World.finish,
      World.incRequests, World.observeDuration, freshId_append, freshId, SpanEvent.id,
      childSpans, isChildStart_remote, SpanEvent.isChildStart, startCount_append,
      finishCount_append, startCount_fresh_add, finishCount_fresh_add, startCount_cons,
      finishCount_cons, startCount_nil, finishCount_nil,
      SpanEvent.isStartOf, SpanEvent.isFinishOf]

theorem apiSlow_contract :
    DownstreamContract Route.apiSlow "/slow" 15000 "backend_slow_error" := by
  intro BACKEND_URL w r env hstatic hbody hroute
  rw [handleRequest_routed BACKEND_URL w r env _ hstatic hbody hroute]
  simp only [handleRoute, apiSlow]
  cases axiosGet 15000 env.errorStack env.backend <;>
    simp [apiSlowBegin, apiSlowResume, tracingMiddleware, resJson, resStatusJson,
      resSend, World.startSpan, World.call, Exchange.ofRequest, callsSince,
      World.log, World.incErrors, World.setTag, World.spanLog, World.finish,
      World.incRequests, World.observeDuration, freshId_append, freshId, SpanEvent.id,
      childSpans, isChildStart_remote, SpanEvent.isChildStart, startCount_append,
      finishCount_append, startCount_fresh_add, finishCount_fresh_add, startCount_cons,
      finishCount_cons, startCount_nil, finishCount_nil,
      SpanEvent.isStartOf, SpanEvent.isFinishOf]

theorem apiSlow_timing (BACKEND_URL : String) (w : World) (r : Request) (env : Env)
    (delayMs status : Nat) (data : Json)
    (hstatic : staticResult r env = StaticOutcome.fallthrough)
    (hbody : env.bodyError = none)
    (hroute : dispatch r.method r.path = Dispatch.handler Route.apiSlow)
    (hreply : env.backend = BackendReply.responds delayMs status data) :
    (delayMs < 15000 → 200 ≤ status → status < 300 →
      (handleRequest BACKEND_URL w r env).2.statusCode = 200 ∧
      (handleRequest BACKEND_URL w r env).2.body = Body.json data) ∧
    (15000 ≤ delayMs → (handleRequest BACKEND_URL w r env).2.statusCode = 503) := by
  have hc := apiSlow_contract BACKEND_URL w r env hstatic hbody hroute
  constructor
  · intro hd h1 h2
    rw [hreply, axiosGet_resolves 15000 _ _ _ _ hd ⟨h1, h2⟩] at hc
    exact ⟨hc.2.2.2.2.1, hc.2.2.2.2.2.1⟩
  · intro hd
    obtain ⟨error, herr⟩ := axiosGet_rejects 15000 env.errorStack env.backend
      (Or.inr ⟨delayMs, status, data, hreply, Or.inl ⟨by decide, hd⟩⟩)
    rw [herr] at hc
    exact hc.2.2.2.2.1

/-! ## The event loop -/

theorem finishCount_eq_zero_of_ids (id : Nat) (events : List SpanEvent)
    (h : ∀ e ∈ events, e.id ≠ id) : finishCount id events = 0 := by
  unfold finishCount
  rw [List.countP_eq_zero]
  intro e he
  have := h e he
  cases e <;> simp [SpanEvent.isFinishOf, SpanEvent.id] at *
  exact this

theorem mem_finishedIds_iff (id : Nat) (events : List SpanEvent) :
    id ∈ finishedIds events ↔ 0 < finishCount id events := by
  induction events with
  | nil => simp [finishedIds, finishCount]
  | cons e rest ih =>
    cases e with
    | start j n p t => simpa [finishedIds, finishCount_cons, SpanEvent.isFinishOf] using ih
    | setTag j k v => simpa [finishedIds, finishCount_cons, SpanEvent.isFinishOf] using ih
    | log j f => simpa [finishedIds, finishCount_cons, SpanEvent.isFinishOf] using ih
    | finish j =>
      simp only [finishedIds, finishCount_cons, SpanEvent.isFinishOf, List.mem_append, ih,
        List.mem_singleton, decide_eq_true_eq]
      by_cases h : j = id
      · simp [h]
      · simp [h, Ne.symm h]

theorem lateMutationsFrom_of_disjoint (finished other : List Nat) (events : List SpanEvent)
    (h : ∀ e ∈ events, e.id ∉ finished) :
    lateMutationsFrom (other ++ finished) events = lateMutationsFrom other events := by
  induction events generalizing other with
  | nil => rfl
  | cons e rest ih =>
    have hrest : ∀ e ∈ rest, e.id ∉ finished := fun e he => h e (List.mem_cons_of_mem _ he)
    have he : e.id ∉ finished := h e (List.mem_cons_self _ _)
    cases e with
    | start j n p t => simpa [lateMutationsFrom] using ih other hrest
    | setTag j k v =>
      simp only [SpanEvent.id] at he
      simp [lateMutationsFrom, ih other hrest, he]
    | log j f =>
      simp only [SpanEvent.id] at he
      simp [lateMutationsFrom, ih other hrest, he]
    | finish j =>
      simp only [lateMutationsFrom]
      exact ih (j :: other) hrest

theorem lateMutations_append_of_unfinished (old new : List SpanEvent)
    (h : ∀ e ∈ new, finishCount e.id old = 0) :
    lateMutations (old ++ new) = lateMutations old + lateMutations new := by
  rw [lateMutations_append]
  have := lateMutationsFrom_of_disjoint (finishedIds old) [] new (by
    intro e he hmem
    have h1 := (mem_finishedIds_iff e.id old).mp hmem
    have h2 := h e he
    omega)
  simpa [lateMutations] using this

theorem freshId_le_append (old new : List SpanEvent) :
    freshId old ≤ freshId (old ++ new) := by
  rw [freshId_append]
  exact Nat.le_max_left _ _

theorem childSpans_append (a b : List SpanEvent) :
    childSpans (a ++ b) = childSpans a ++ childSpans b := by
  simp [childSpans]

theorem pairwise_get_eraseIdx {α : Type} (R : α → α → Prop) (hR : ∀ a b, R a b → R b a)
    (l : List α) (h : l.Pairwise R) (i : Nat) (a : α) (ha : l[i]? = some a) :
    ∀ b ∈ l.eraseIdx i, R a b := by
  induction l generalizing i with
  | nil => simp at ha
  | cons x t ih =>
    rw [List.pairwise_cons] at h
    cases i with
    | zero =>
      simp at ha
      subst ha
      intro b hb
      simp at hb
      exact h.1 b hb
    | succ i =>
      simp at ha
      intro b hb
      simp at hb
      rcases hb with hb | hb
      · subst hb
        exact hR _ _ (h.1 a (List.getElem?_mem ha))
      · exact ih h.2 i ha b hb

theorem mem_eraseIdx_or_eq {α : Type} (l : List α) (i : Nat) (a b : α)
    (ha : l[i]? = some a) (hb : b ∈ l) : b = a ∨ b ∈ l.eraseIdx i := by
  induction l generalizing i with
  | nil => simp at hb
  | cons x t ih =>
    cases i with
    | zero =>
      simp at ha
      subst ha
      simp at hb ⊢
      exact hb
    | succ i =>
      simp at ha
      simp at hb ⊢
      rcases hb with hb | hb
      · exact Or.inr (Or.inl hb)
      · rcases ih i ha hb with h | h
        · exact Or.inl h
        · exact Or.inr (Or.inr h)

theorem mem_of_mem_eraseIdx_list {α : Type} (l : List α) (i : Nat) (b : α)
    (hb : b ∈ l.eraseIdx i) : b ∈ l :=
  (List.eraseIdx_sublist l i).subset hb

theorem handleRequest_eq_arrive_settle (BACKEND_URL : String) (w : World) (r : Request)
    (env : Env) :
    handleRequest BACKEND_URL w r env =
      match arrive BACKEND_URL w r env with
      | (w1, Progress.responded response) => (w1, response)
      | (w1, Progress.suspended q) => settle BACKEND_URL w1 q := by
  unfold handleRequest arrive
  cases staticResult r env with
  | served response => rfl
  | failed err => rfl
  | fallthrough =>
    cases env.bodyError with
    | some err => rfl
    | none =>
      cases dispatch r.method r.path with
      | handler route =>
        cases route <;>
          simp only [handleRoute, beginRoute, settle, apiProducts, apiSlow]
      | options => rfl
      | notFound => rfl

theorem settle_effect (BACKEND_URL : String) (w : World) (q : Pending) (hq : q.Hooked) :
    (settle BACKEND_URL w q).1.tracer = w.tracer ++ callsSince w (settle BACKEND_URL w q).1 ∧
    (∀ e ∈ callsSince w (settle BACKEND_URL w q).1, e.id ∈ q.spans) ∧
    childSpans (callsSince w (settle BACKEND_URL w q).1) = [] ∧
    lateMutations (callsSince w (settle BACKEND_URL w q).1) = 0 ∧
    (∀ id, finishCount id (callsSince w (settle BACKEND_URL w q).1) ≤ 1) ∧
    (∀ c, q.childSpan = some c →
      finishCount c (callsSince w (settle BACKEND_URL w q).1) = 1) := by
  obtain ⟨rootSpan, hspan, hsend, hchild⟩ := hq
  obtain ⟨x, env, k⟩ := q
  simp only at hspan hsend
  cases hh : x.send with
  | none => simp [hh] at hsend
  | some hook =>
    simp only [hh, Option.map_some', Option.some.injEq] at hsend
    by_cases hs : 400 ≤ x.statusCode
    all_goals
      cases k with
      | products c =>
        simp only [Pending.childSpan] at hchild
        simp at hchild
        subst hchild
        simp only [settle]
        cases axiosGet 5000 env.errorStack env.backend <;>
          simp [apiProductsResume, resJson, resStatusJson, resSend, resEnd, globalErrorHandler, hh,
          hsend, hspan, hs, callsSince,
          World.log, World.incErrors, World.setTag, World.spanLog, World.finish,
          World.incRequests, World.observeDuration, Pending.spans, Pending.childSpan,
          SpanEvent.id, childSpans, SpanEvent.isChildStart, lateMutations, lateMutationsFrom,
          finishCount_cons, finishCount_nil, SpanEvent.isFinishOf]<;>
          (intro id; split_ifs; all_goals omega)
      | slow c =>
        simp only [Pending.childSpan] at hchild
        simp at hchild
        subst hchild
        simp only [settle]
        cases axiosGet 15000 env.errorStack env.backend <;>
          simp [apiSlowResume, resJson, resStatusJson, resSend, resEnd, globalErrorHandler, hh,
          hsend, hspan, hs, callsSince,
          World.log, World.incErrors, World.setTag, World.spanLog, World.finish,
          World.incRequests, World.observeDuration, Pending.spans, Pending.childSpan,
          SpanEvent.id, childSpans, SpanEvent.isChildStart, lateMutations, lateMutationsFrom,
          finishCount_cons, finishCount_nil, SpanEvent.isFinishOf]<;>
          (intro id; split_ifs; all_goals omega)
      | sendFile =>
        simp only [settle, Frontend.root]
        cases env.sendFile <;>
          simp [Frontend.root, resJson, resStatusJson, resSend, resEnd, globalErrorHandler, hh,
          hsend, hspan, hs, callsSince,
          World.log, World.incErrors, World.setTag, World.spanLog, World.finish,
          World.incRequests, World.observeDuration, Pending.spans, Pending.childSpan,
          SpanEvent.id, childSpans, SpanEvent.isChildStart, lateMutations, lateMutationsFrom,
          finishCount_cons, finishCount_nil, SpanEvent.isFinishOf]
        intro id
        split_ifs
        all_goals omega
      | metrics =>
        simp [settle, metrics, resJson, resStatusJson, resSend, resEnd, globalErrorHandler, hh,
          hsend, hspan, hs, callsSince,
          World.log, World.incErrors, World.setTag, World.spanLog, World.finish,
          World.incRequests, World.observeDuration, Pending.spans, Pending.childSpan,
          SpanEvent.id, childSpans, SpanEvent.isChildStart, lateMutations, lateMutationsFrom,
          finishCount_cons, finishCount_nil, SpanEvent.isFinishOf]

theorem arrive_effect (BACKEND_URL : String) (w : World) (r : Request) (env : Env) :
    (arrive BACKEND_URL w r env).1.tracer =
      w.tracer ++ callsSince w (arrive BACKEND_URL w r env).1 ∧
    (∀ e ∈ callsSince w (arrive BACKEND_URL w r env).1, freshId w.tracer ≤ e.id) ∧
    lateMutations (callsSince w (arrive BACKEND_URL w r env).1) = 0 ∧
    (∀ id, finishCount id (callsSince w (arrive BACKEND_URL w r env).1) ≤ 1) ∧
    (∀ c ∈ childSpans (callsSince w (arrive BACKEND_URL w r env).1),
      ∃ q, (arrive BACKEND_URL w r env).2 = Progress.suspended q ∧ q.childSpan = some c) ∧
    ∀ q, (arrive BACKEND_URL w r env).2 = Progress.suspended q →
      q.Hooked ∧ ∀ id ∈ q.spans, freshId w.tracer ≤ id ∧
        finishCount id (callsSince w (arrive BACKEND_URL w r env).1) = 0 ∧
        id < freshId (arrive BACKEND_URL w r env).1.tracer := by
  cases hstatic : staticResult r env with
  | served response =>
    simp [arrive, beginRoute, hstatic, tracingMiddleware, resJson, resStatusJson,
      resSend, resEnd, globalErrorHandler, Exchange.ofRequest, callsSince,
      World.startSpan, World.call, World.log, World.incErrors, World.setTag,
      World.spanLog, World.finish, World.incRequests, World.observeDuration,
      Pending.spans, Pending.childSpan, Pending.Hooked, SpanEvent.id, childSpans,
      SpanEvent.isChildStart, isChildStart_remote, lateMutations, lateMutationsFrom,
      finishCount_cons, finishCount_nil, SpanEvent.isFinishOf, freshId_append, freshId]
  | failed err =>
    simp [arrive, beginRoute, hstatic, tracingMiddleware, resJson, resStatusJson,
      resSend, resEnd, globalErrorHandler, Exchange.ofRequest, callsSince,
      World.startSpan, World.call, World.log, World.incErrors, World.setTag,
      World.spanLog, World.finish, World.incRequests, World.observeDuration,
      Pending.spans, Pending.childSpan, Pending.Hooked, SpanEvent.id, childSpans,
      SpanEvent.isChildStart, isChildStart_remote, lateMutations, lateMutationsFrom,
      finishCount_cons, finishCount_nil, SpanEvent.isFinishOf, freshId_append, freshId]
  | fallthrough =>
    cases hbody : env.bodyError with
    | some err =>
      simp [arrive, beginRoute, hstatic, hbody, tracingMiddleware, resJson, resStatusJson,
        resSend, resEnd, globalErrorHandler, Exchange.ofRequest, callsSince,
        World.startSpan, World.call, World.log, World.incErrors, World.setTag,
        World.spanLog, World.finish, World.incRequests, World.observeDuration,
        Pending.spans, Pending.childSpan, Pending.Hooked, SpanEvent.id, childSpans,
        SpanEvent.isChildStart, isChildStart_remote, lateMutations, lateMutationsFrom,
        finishCount_cons, finishCount_nil, SpanEvent.isFinishOf, freshId_append, freshId]
    | none =>
      cases hroute : dispatch r.method r.path with
      | handler route =>
        cases route with
        | root =>
          simp [arrive, beginRoute, hstatic, hbody, hroute, tracingMiddleware, resJson, resStatusJson,
            resSend, resEnd, globalErrorHandler, Exchange.ofRequest, callsSince,
            World.startSpan, World.call, World.log, World.incErrors, World.setTag,
            World.spanLog, World.finish, World.incRequests, World.observeDuration,
            Pending.spans, Pending.childSpan, Pending.Hooked, SpanEvent.id, childSpans,
            SpanEvent.isChildStart, isChildStart_remote, lateMutations, lateMutationsFrom,
            finishCount_cons, finishCount_nil, SpanEvent.isFinishOf, freshId_append, freshId]
        | health =>
          simp [arrive, beginRoute, hstatic, hbody, hroute, health, tracingMiddleware, resJson, resStatusJson,
            resSend, resEnd, globalErrorHandler, Exchange.ofRequest, callsSince,
            World.startSpan, World.call, World.log, World.incErrors, World.setTag,
            World.spanLog, World.finish, World.incRequests, World.observeDuration,
            Pending.spans, Pending.childSpan, Pending.Hooked, SpanEvent.id, childSpans,
            SpanEvent.isChildStart, isChildStart_remote, lateMutations, lateMutationsFrom,
            finishCount_cons, finishCount_nil, SpanEvent.isFinishOf, freshId_append, freshId]
          intro id
          split_ifs
          all_goals omega
        | metrics =>
          simp [arrive, beginRoute, hstatic, hbody, hroute, tracingMiddleware, resJson, resStatusJson,
            resSend, resEnd, globalErrorHandler, Exchange.ofRequest, callsSince,
            World.startSpan, World.call, World.log, World.incErrors, World.setTag,
            World.spanLog, World.finish, World.incRequests, World.observeDuration,
            Pending.spans, Pending.childSpan, Pending.Hooked, SpanEvent.id, childSpans,
            SpanEvent.isChildStart, isChildStart_remote, lateMutations, lateMutationsFrom,
            finishCount_cons, finishCount_nil, SpanEvent.isFinishOf, freshId_append, freshId]
        | apiProducts =>
          simp [arrive, beginRoute, hstatic, hbody, hroute, apiProductsBegin, tracingMiddleware, resJson, resStatusJson,
            resSend, resEnd, globalErrorHandler, Exchange.ofRequest, callsSince,
            World.startSpan, World.call, World.log, World.incErrors, World.setTag,
            World.spanLog, World.finish, World.incRequests, World.observeDuration,
            Pending.spans, Pending.childSpan, Pending.Hooked, SpanEvent.id, childSpans,
            SpanEvent.isChildStart, isChildStart_remote, lateMutations, lateMutationsFrom,
            finishCount_cons, finishCount_nil, SpanEvent.isFinishOf, freshId_append, freshId]
          intro id h
          omega
        | apiSlow =>
          simp [arrive, beginRoute, hstatic, hbody, hroute, apiSlowBegin, tracingMiddleware, resJson, resStatusJson,
            resSend, resEnd, globalErrorHandler, Exchange.ofRequest, callsSince,
            World.startSpan, World.call, World.log, World.incErrors, World.setTag,
            World.spanLog, World.finish, World.incRequests, World.observeDuration,
            Pending.spans, Pending.childSpan, Pending.Hooked, SpanEvent.id, childSpans,
            SpanEvent.isChildStart, isChildStart_remote, lateMutations, lateMutationsFrom,
            finishCount_cons, finishCount_nil, SpanEvent.isFinishOf, freshId_append, freshId]
          intro id h
          omega
        | apiError =>
          simp [arrive, beginRoute, hstatic, hbody, hroute, apiError, tracingMiddleware, resJson, resStatusJson,
            resSend, resEnd, globalErrorHandler, Exchange.ofRequest, callsSince,
            World.startSpan, World.call, World.log, World.incErrors, World.setTag,
            World.spanLog, World.finish, World.incRequests, World.observeDuration,
            Pending.spans, Pending.childSpan, Pending.Hooked, SpanEvent.id, childSpans,
            SpanEvent.isChildStart, isChildStart_remote, lateMutations, lateMutationsFrom,
            finishCount_cons, finishCount_nil, SpanEvent.isFinishOf, freshId_append, freshId]
          intro id
          split_ifs
          all_goals omega
      | options =>
        simp [arrive, beginRoute, hstatic, hbody, hroute, tracingMiddleware, resJson, resStatusJson,
          resSend, resEnd, globalErrorHandler, Exchange.ofRequest, callsSince,
          World.startSpan, World.call, World.log, World.incErrors, World.setTag,
          World.spanLog, World.finish, World.incRequests, World.observeDuration,
          Pending.spans, Pending.childSpan, Pending.Hooked, SpanEvent.id, childSpans,
          SpanEvent.isChildStart, isChildStart_remote, lateMutations, lateMutationsFrom,
          finishCount_cons, finishCount_nil, SpanEvent.isFinishOf, freshId_append, freshId]
        intro id
        split_ifs
        all_goals omega
      | notFound =>
        simp [arrive, beginRoute, hstatic, hbody, hroute, tracingMiddleware, resJson, resStatusJson,
          resSend, resEnd, globalErrorHandler, Exchange.ofRequest, callsSince,
          World.startSpan, World.call, World.log, World.incErrors, World.setTag,
          World.spanLog, World.finish, World.incRequests, World.observeDuration,
          Pending.spans, Pending.childSpan, Pending.Hooked, SpanEvent.id, childSpans,
          SpanEvent.isChildStart, isChildStart_remote, lateMutations, lateMutationsFrom,
          finishCount_cons, finishCount_nil, SpanEvent.isFinishOf, freshId_append, freshId]

theorem metricsInSync_settle (BACKEND_URL : String) (w : World) (q : Pending)
    (h : MetricsInSync w) : MetricsInSync (settle BACKEND_URL w q).1 := by
  unfold settle
  cases q.continuation with
  | products c =>
    simp only []
    cases axiosGet 5000 q.env.errorStack q.env.backend <;>
      simp only [apiProductsResume, resJson, resStatusJson] <;>
      apply metricsInSync_resSend <;> refine metricsInSync_of_eq w _ h ?_ ?_ <;>
        simp only [World.log, World.incErrors, World.finish, World.spanLog, World.setTag]
  | slow c =>
    simp only []
    cases axiosGet 15000 q.env.errorStack q.env.backend <;>
      simp only [apiSlowResume, resJson, resStatusJson] <;>
      apply metricsInSync_resSend <;> refine metricsInSync_of_eq w _ h ?_ ?_ <;>
        simp only [World.log, World.incErrors, World.finish, World.spanLog, World.setTag]
  | sendFile => exact metricsInSync_handleRoute BACKEND_URL w q.exchange q.env Route.root h
  | metrics => exact h

theorem metricsInSync_arrive (BACKEND_URL : String) (w : World) (r : Request) (env : Env)
    (h : MetricsInSync w) : MetricsInSync (arrive BACKEND_URL w r env).1 := by
  unfold arrive
  cases staticResult r env with
  | served response => exact h
  | failed err => exact metricsInSync_globalErrorHandler _ _ env err h
  | fallthrough =>
    cases env.bodyError with
    | some err => exact metricsInSync_globalErrorHandler _ _ env err h
    | none =>
      have h1 : MetricsInSync (tracingMiddleware w (Exchange.ofRequest r) r env).1 := by
        refine metricsInSync_of_eq w _ h ?_ ?_ <;>
          simp only [World.log, World.startSpan, tracingMiddleware]
      cases dispatch r.method r.path with
      | handler route =>
        cases route with
        | root => exact h1
        | health => exact metricsInSync_handleRoute BACKEND_URL _ _ env Route.health h1
        | metrics => exact h1
        | apiProducts =>
          refine metricsInSync_of_eq _ _ h1 ?_ ?_ <;>
            simp only [beginRoute, World.log, World.setTag, World.call, World.startSpan,
              apiProductsBegin]
        | apiSlow =>
          refine metricsInSync_of_eq _ _ h1 ?_ ?_ <;>
            simp only [beginRoute, World.log, World.setTag, World.call, World.startSpan,
              apiSlowBegin]
        | apiError => exact metricsInSync_handleRoute BACKEND_URL _ _ env Route.apiError h1
      | options =>
        simp only []
        exact metricsInSync_resSend _ _ _ _ h1
      | notFound => exact h1

theorem childSpan_mem_spans (q : Pending) (c : Nat) (h : q.childSpan = some c) :
    c ∈ q.spans := by
  obtain ⟨x, env, k⟩ := q
  cases k <;> simp [Pending.childSpan, Pending.spans] at h ⊢
  · exact Or.inr h.symm
  · exact Or.inr h.symm

theorem lt_freshId_of_mem_childSpans (events : List SpanEvent) (c : Nat)
    (h : c ∈ childSpans events) : c < freshId events := by
  simp only [childSpans, List.mem_map, List.mem_filter] at h
  obtain ⟨e, ⟨he, _⟩, rfl⟩ := h
  exact id_lt_freshId events e he

theorem valid_init : Process.init.Valid where
  sync := metricsInSync_init
  late := rfl
  once := fun _ => Nat.zero_le _
  hooked := fun q hq => by cases hq
  pendingOpen := fun q hq => by cases hq
  apart := List.Pairwise.nil
  children := fun c hc => by cases hc

theorem valid_resume (BACKEND_URL : String) (p : Process) (index : Nat) (q : Pending)
    (hget : p.pending[index]? = some q) (h : p.Valid) :
    Process.Valid
      { world := (settle BACKEND_URL p.world q).1, pending := p.pending.eraseIdx index } := by
  have hq : q ∈ p.pending := List.getElem?_mem hget
  obtain ⟨htr, hids, hstart, hlate, honce, hchild⟩ :=
    settle_effect BACKEND_URL p.world q (h.hooked q hq)
  generalize callsSince p.world (settle BACKEND_URL p.world q).1 = new at htr hids hstart hlate honce hchild
  have hzero : ∀ id, id ∉ q.spans → finishCount id new = 0 := by
    intro id hid
    apply finishCount_eq_zero_of_ids
    intro e he heq
    exact hid (heq ▸ hids e he)
  have hsym : ∀ a b : Pending, (∀ x ∈ a.spans, ∀ y ∈ b.spans, x ≠ y) →
      ∀ x ∈ b.spans, ∀ y ∈ a.spans, x ≠ y :=
    fun a b hab x hx y hy => Ne.symm (hab y hy x hx)
  have hapart : ∀ q2 ∈ p.pending.eraseIdx index, ∀ a ∈ q.spans, ∀ b ∈ q2.spans, a ≠ b :=
    pairwise_get_eraseIdx _ hsym p.pending h.apart index q hget
  constructor
  · exact metricsInSync_settle BACKEND_URL p.world q h.sync
  · show lateMutations (settle BACKEND_URL p.world q).1.tracer = 0
    rw [htr, lateMutations_append_of_unfinished _ _
      (fun e he => (h.pendingOpen q hq _ (hids e he)).1), h.late, hlate]
  · intro id
    show finishCount id (settle BACKEND_URL p.world q).1.tracer ≤ 1
    rw [htr, finishCount_append]
    by_cases hid : id ∈ q.spans
    · rw [(h.pendingOpen q hq id hid).1]
      simpa using honce id
    · rw [hzero id hid]
      exact h.once id
  · intro q2 hq2
    exact h.hooked q2 (mem_of_mem_eraseIdx_list _ _ _ hq2)
  · intro q2 hq2 id hid
    show finishCount id (settle BACKEND_URL p.world q).1.tracer = 0 ∧
      id < freshId (settle BACKEND_URL p.world q).1.tracer
    have hmem := mem_of_mem_eraseIdx_list _ _ _ hq2
    have hnot : id ∉ q.spans := fun hin => hapart q2 hq2 id hin id hid rfl
    rw [htr, finishCount_append, hzero id hnot]
    exact ⟨by simpa using (h.pendingOpen q2 hmem id hid).1,
      Nat.lt_of_lt_of_le (h.pendingOpen q2 hmem id hid).2 (freshId_le_append _ _)⟩
  · exact h.apart.sublist (List.eraseIdx_sublist _ _)
  · intro c hc
    change c ∈ childSpans (settle BACKEND_URL p.world q).1.tracer at hc
    show finishCount c (settle BACKEND_URL p.world q).1.tracer = 1 ∨
      ∃ q2 ∈ p.pending.eraseIdx index, q2.childSpan = some c
    rw [htr, childSpans_append, hstart, List.append_nil] at hc
    rw [htr, finishCount_append]
    rcases h.children c hc with h1 | ⟨q2, hq2, hc2⟩
    · left
      have hnot : c ∉ q.spans := by
        intro hin
        have := (h.pendingOpen q hq c hin).1
        omega
      rw [hzero c hnot, h1]
    · rcases mem_eraseIdx_or_eq p.pending index q q2 hget hq2 with heq | hmem
      · left
        subst heq
        rw [(h.pendingOpen q2 hq c (childSpan_mem_spans q2 c hc2)).1, hchild c hc2]
      · exact Or.inr ⟨q2, hmem, hc2⟩

theorem valid_request (BACKEND_URL : String) (p : Process) (r : Request) (env : Env)
    (h : p.Valid) : (p.step BACKEND_URL (Event.request r env)).Valid := by
  obtain ⟨htr, hids, hlate, honce, hchild, hsusp⟩ := arrive_effect BACKEND_URL p.world r env
  have hsync := metricsInSync_arrive BACKEND_URL p.world r env h.sync
  generalize callsSince p.world (arrive BACKEND_URL p.world r env).1 = new
    at htr hids hlate honce hchild hsusp
  have hzero : ∀ id, id < freshId p.world.tracer → finishCount id new = 0 := by
    intro id hid
    apply finishCount_eq_zero_of_ids
    intro e he heq
    have := hids e he
    omega
  have hlate2 : lateMutations (arrive BACKEND_URL p.world r env).1.tracer = 0 := by
    rw [htr, lateMutations_append_of_unfinished _ _
      (fun e he => finishCount_of_fresh _ _ (hids e he)), h.late, hlate]
  have honce2 : ∀ id, finishCount id (arrive BACKEND_URL p.world r env).1.tracer ≤ 1 := by
    intro id
    rw [htr, finishCount_append]
    by_cases hid : id < freshId p.world.tracer
    · rw [hzero id hid]
      exact h.once id
    · rw [finishCount_of_fresh _ _ (Nat.le_of_not_lt hid)]
      simpa using honce id
  have hopen2 : ∀ q ∈ p.pending, ∀ id ∈ q.spans,
      finishCount id (arrive BACKEND_URL p.world r env).1.tracer = 0 ∧
        id < freshId (arrive BACKEND_URL p.world r env).1.tracer := by
    intro q hq id hid
    have hold := h.pendingOpen q hq id hid
    rw [htr, finishCount_append, hzero id hold.2]
    exact ⟨by simpa using hold.1, Nat.lt_of_lt_of_le hold.2 (freshId_le_append _ _)⟩
  have hchildOld : ∀ c ∈ childSpans p.world.tracer,
      finishCount c (arrive BACKEND_URL p.world r env).1.tracer = 1 ∨
        ∃ q ∈ p.pending, q.childSpan = some c := by
    intro c hc
    rcases h.children c hc with h1 | h1
    · left
      rw [htr, finishCount_append, hzero c (lt_freshId_of_mem_childSpans _ c hc), h1]
    · exact Or.inr h1
  simp only [Process.step]
  rcases harr : arrive BACKEND_URL p.world r env with ⟨w2, progress⟩
  rw [harr] at htr hsusp hchild hsync hlate2 honce2 hopen2 hchildOld
  simp only at htr hsusp hchild hsync hlate2 honce2 hopen2 hchildOld
  cases progress with
  | responded response =>
    refine ⟨hsync, hlate2, honce2, h.hooked, hopen2, h.apart, ?_⟩
    intro c hc
    change c ∈ childSpans w2.tracer at hc
    rw [htr, childSpans_append, List.mem_append] at hc
    rcases hc with hc | hc
    · exact hchildOld c hc
    · obtain ⟨q, hq, _⟩ := hchild c hc
      cases hq
  | suspended q =>
    obtain ⟨hhooked, hfresh⟩ := hsusp q rfl
    refine ⟨hsync, hlate2, honce2, ?_, ?_, ?_, ?_⟩
    · intro q2 hq2
      rcases List.mem_append.mp hq2 with hq2 | hq2
      · exact h.hooked q2 hq2
      · rw [List.mem_singleton] at hq2
        subst hq2
        exact hhooked
    · intro q2 hq2 id hid
      rcases List.mem_append.mp hq2 with hq2 | hq2
      · exact hopen2 q2 hq2 id hid
      · rw [List.mem_singleton] at hq2
        subst hq2
        obtain ⟨h1, h2, h3⟩ := hfresh id hid
        show finishCount id w2.tracer = 0 ∧ id < freshId w2.tracer
        rw [htr, finishCount_append, finishCount_of_fresh _ _ h1, h2]
        exact ⟨rfl, by rw [← htr]; exact h3⟩
    · show (p.pending ++ [q]).Pairwise _
      rw [List.pairwise_append]
      refine ⟨h.apart, List.pairwise_singleton _ _, ?_⟩
      intro q1 hq1 q2 hq2 a ha b hb
      rw [List.mem_singleton] at hq2
      subst hq2
      have h1 := (h.pendingOpen q1 hq1 a ha).2
      have h2 := (hfresh b hb).1
      omega
    · intro c hc
      change c ∈ childSpans w2.tracer at hc
      show finishCount c w2.tracer = 1 ∨ ∃ q2 ∈ p.pending ++ [q], q2.childSpan = some c
      rw [htr, childSpans_append, List.mem_append] at hc
      rcases hc with hc | hc
      · rcases hchildOld c hc with h1 | ⟨q2, hq2, hc2⟩
        · exact Or.inl h1
        · exact Or.inr ⟨q2, List.mem_append_left _ hq2, hc2⟩
      · obtain ⟨q2, hq2, hc2⟩ := hchild c hc
        cases hq2
        exact Or.inr ⟨q, List.mem_append_right _ (List.mem_singleton_self _), hc2⟩

theorem valid_step (BACKEND_URL : String) (p : Process) (e : Event) (h : p.Valid) :
    (p.step BACKEND_URL e).Valid := by
  cases e with
  | request r env => exact valid_request BACKEND_URL p r env h
  | resume index =>
    simp only [Process.step]
    cases hget : p.pending[index]? with
    | none => exact h
    | some q => exact valid_resume BACKEND_URL p index q hget h

theorem valid_exec (BACKEND_URL : String) (events : List Event) (p : Process)
    (h : p.Valid) : (p.exec BACKEND_URL events).Valid := by
  induction events generalizing p with
  | nil => exact h
  | cons e rest ih => exact ih _ (valid_step BACKEND_URL p e h)

theorem exec_spans (BACKEND_URL : String) (events : List Event) :
    (∀ id, finishCount id (Process.init.exec BACKEND_URL events).world.tracer ≤ 1) ∧
    ∀ c ∈ childSpans (Process.init.exec BACKEND_URL events).world.tracer,
      finishCount c (Process.init.exec BACKEND_URL events).world.tracer = 1 ∨
      (finishCount c (Process.init.exec BACKEND_URL events).world.tracer = 0 ∧
        ∃ q ∈ (Process.init.exec BACKEND_URL events).pending, q.childSpan = some c) := by
  have h := valid_exec BACKEND_URL events Process.init valid_init
  refine ⟨h.once, ?_⟩
  intro c hc
  rcases h.children c hc with h1 | ⟨q, hq, hc2⟩
  · exact Or.inl h1
  · exact Or.inr ⟨(h.pendingOpen q hq c (childSpan_mem_spans q c hc2)).1, q, hq, hc2⟩

/-! ## Claims -/

/-- C1 (as stated, refuted): a GET request for which `express.static` finds a file is
answered with status 200 before the tracing middleware runs: no root span is started and
the request counter of its labels is not incremented. -/
theorem static_asset_without_root_span :
    (handleRequest "http://backend:5000" World.init (sampleRequest "GET" "/style.css")
      sampleStaticEnv).2.statusCode = 200 ∧
    (rootSpans (callsSince World.init
      (handleRequest "http://backend:5000" World.init (sampleRequest "GET" "/style.css")
        sampleStaticEnv).1)).length ≠ 1 ∧
    (handleRequest "http://backend:5000" World.init (sampleRequest "GET" "/style.css")
      sampleStaticEnv).1.httpRequestsTotal ("GET", "/style.css", "200") ≠
      World.init.httpRequestsTotal ("GET", "/style.css", "200") + 1 := by
  decide

/-- The route `GET /metrics` writes its response with `res.end`, which the tracing
middleware does not intercept: the root span of the request is started and never finished,
and no request metric is recorded. -/
theorem metrics_route_leaves_root_span_open :
    (handleRequest "http://backend:5000" World.init (sampleRequest "GET" "/metrics")
      (sampleEnv sampleProducts)).2.statusCode = 200 ∧
    startCount 0 (handleRequest "http://backend:5000" World.init
      (sampleRequest "GET" "/metrics") (sampleEnv sampleProducts)).1.tracer = 1 ∧
    finishCount 0 (handleRequest "http://backend:5000" World.init
      (sampleRequest "GET" "/metrics") (sampleEnv sampleProducts)).1.tracer = 0 ∧
    (handleRequest "http://backend:5000" World.init (sampleRequest "GET" "/metrics")
      (sampleEnv sampleProducts)).1.httpRequestsTotal ("GET", "/metrics", "200") = 0 := by
  decide

/-- C1 (amended): a request that passes `express.static` and `express.json` and is
answered through `res.send` (the routes `/health`, `/api/products`, `/api/slow`,
`/api/error`, and the error handler after a failed `res.sendFile` of `GET /`) starts
exactly one root span, finishes it exactly once, and makes exactly one request-metrics
record (one increment and one observation under its labels, nothing under other labels).
A request answered by `express.static`, or whose error arises before the tracing
middleware, starts no span and makes no request-metrics record. -/
theorem root_span_and_metrics_once (BACKEND_URL : String) (w : World) (r : Request)
    (env : Env) :
    (staticResult r env = StaticOutcome.fallthrough → env.bodyError = none →
      (dispatch r.method r.path = Dispatch.handler Route.health ∨
        dispatch r.method r.path = Dispatch.handler Route.apiProducts ∨
        dispatch r.method r.path = Dispatch.handler Route.apiSlow ∨
        dispatch r.method r.path = Dispatch.handler Route.apiError ∨
        (dispatch r.method r.path = Dispatch.handler Route.root ∧
          ∃ err, env.sendFile = Except.error err)) →
      rootSpans (callsSince w (handleRequest BACKEND_URL w r env).1) = [freshId w.tracer] ∧
      startCount (freshId w.tracer) (handleRequest BACKEND_URL w r env).1.tracer = 1 ∧
      finishCount (freshId w.tracer) (handleRequest BACKEND_URL w r env).1.tracer = 1 ∧
      (handleRequest BACKEND_URL w r env).1.httpRequestsTotal
          (r.method, r.path, toString (handleRequest BACKEND_URL w r env).2.statusCode) =
        w.httpRequestsTotal
          (r.method, r.path, toString (handleRequest BACKEND_URL w r env).2.statusCode) + 1 ∧
      observationCount ((handleRequest BACKEND_URL w r env).1.httpRequestDuration
          (r.method, r.path, toString (handleRequest BACKEND_URL w r env).2.statusCode)) =
        observationCount (w.httpRequestDuration
          (r.method, r.path, toString (handleRequest BACKEND_URL w r env).2.statusCode)) + 1 ∧
      ∀ k, k ≠ (r.method, r.path, toString (handleRequest BACKEND_URL w r env).2.statusCode) →
        (handleRequest BACKEND_URL w r env).1.httpRequestsTotal k = w.httpRequestsTotal k ∧
        (handleRequest BACKEND_URL w r env).1.httpRequestDuration k =
          w.httpRequestDuration k) ∧
    (((∃ response, staticResult r env = StaticOutcome.served response) ∨
        (∃ err, staticResult r env = StaticOutcome.failed err) ∨
        (staticResult r env = StaticOutcome.fallthrough ∧ ∃ err, env.bodyError = some err)) →
      (handleRequest BACKEND_URL w r env).1.tracer = w.tracer ∧
      (handleRequest BACKEND_URL w r env).1.httpRequestsTotal = w.httpRequestsTotal ∧
      (handleRequest BACKEND_URL w r env).1.httpRequestDuration = w.httpRequestDuration) :=
  ⟨instrumented_via_send BACKEND_URL w r env,
   uninstrumented_before_middleware BACKEND_URL w r env⟩

/-- Witness of C1 (amended): `GET /api/error` on a fresh process finishes its root span
once, and a request served by `express.static` leaves the tracer untouched. -/
theorem root_span_and_metrics_once_witness :
    finishCount (freshId World.init.tracer) (handleRequest "http://backend:5000" World.init
      (sampleRequest "GET" "/api/error") (sampleEnv sampleProducts)).1.tracer = 1 ∧
    (handleRequest "http://backend:5000" World.init (sampleRequest "GET" "/style.css")
      sampleStaticEnv).1.tracer = World.init.tracer :=
  ⟨((root_span_and_metrics_once "http://backend:5000" World.init
      (sampleRequest "GET" "/api/error") (sampleEnv sampleProducts)).1 rfl rfl
      (Or.inr (Or.inr (Or.inr (Or.inl (by decide)))))).2.2.1,
   ((root_span_and_metrics_once "http://backend:5000" World.init
      (sampleRequest "GET" "/style.css") sampleStaticEnv).2
      (Or.inl ⟨_, rfl⟩)).1⟩

/-- C2: when the downstream call of `GET /api/products` fails (connection failure, no reply
within the 5000 ms timeout, or a reply whose status is outside 200..299), the client
receives status 503 with a body made of exactly the fields `error` and `message`, the
counter `frontend_errors_total` of `backend_call_error` grows by exactly 1 and the counter
of every other error type keeps its value. -/
theorem api_products_failure (BACKEND_URL : String) (w : World) (r : Request) (env : Env)
    (hstatic : staticResult r env = StaticOutcome.fallthrough)
    (hbody : env.bodyError = none)
    (hroute : dispatch r.method r.path = Dispatch.handler Route.apiProducts)
    (hfail : (∃ afterMs message, env.backend = BackendReply.networkError afterMs message) ∨
      ∃ delayMs status data, env.backend = BackendReply.responds delayMs status data ∧
        (5000 ≤ delayMs ∨ status < 200 ∨ 300 ≤ status)) :
    ∃ error, axiosGet 5000 env.errorStack env.backend = Except.error error ∧
      (handleRequest BACKEND_URL w r env).2.statusCode = 503 ∧
      (handleRequest BACKEND_URL w r env).2.body = Body.json (Json.obj
        [("error", Json.str "Service backend indisponible"),
         ("message", Json.str error.message)]) ∧
      (handleRequest BACKEND_URL w r env).1.frontendErrorsTotal "backend_call_error" =
        w.frontendErrorsTotal "backend_call_error" + 1 ∧
      ∀ type, type ≠ "backend_call_error" →
        (handleRequest BACKEND_URL w r env).1.frontendErrorsTotal type =
          w.frontendErrorsTotal type := by
  have hrej : ∃ error, axiosGet 5000 env.errorStack env.backend = Except.error error := by
    apply axiosGet_rejects
    rcases hfail with h | ⟨d, s, data, h, hcase⟩
    · exact Or.inl h
    · refine Or.inr ⟨d, s, data, h, ?_⟩
      rcases hcase with hc | hc | hc
      · exact Or.inl ⟨by decide, hc⟩
      · exact Or.inr (Or.inl hc)
      · exact Or.inr (Or.inr hc)
  obtain ⟨error, herr⟩ := hrej
  refine ⟨error, herr, ?_⟩
  rw [handleRequest_routed BACKEND_URL w r env _ hstatic hbody hroute]
  simp only [handleRoute, apiProducts, herr]
  simp [apiProductsBegin, apiProductsResume, tracingMiddleware, resStatusJson, resSend,
    World.startSpan, World.call,
    World.log, World.incErrors, World.setTag, World.spanLog, World.finish, World.incRequests,
    World.observeDuration]

/-- Witness of C2: the backend answers `GET /api/products` only after 6000 ms. -/
theorem api_products_failure_witness :
    ∃ error, axiosGet 5000 (sampleEnv (BackendReply.responds 6000 200 Json.null)).errorStack
        (sampleEnv (BackendReply.responds 6000 200 Json.null)).backend = Except.error error ∧
      (handleRequest "http://backend:5000" World.init (sampleRequest "GET" "/api/products")
        (sampleEnv (BackendReply.responds 6000 200 Json.null))).2.statusCode = 503 ∧
      (handleRequest "http://backend:5000" World.init (sampleRequest "GET" "/api/products")
        (sampleEnv (BackendReply.responds 6000 200 Json.null))).2.body = Body.json (Json.obj
          [("error", Json.str "Service backend indisponible"),
           ("message", Json.str error.message)]) ∧
      (handleRequest "http://backend:5000" World.init (sampleRequest "GET" "/api/products")
        (sampleEnv (BackendReply.responds 6000 200 Json.null))).1.frontendErrorsTotal
          "backend_call_error" = World.init.frontendErrorsTotal "backend_call_error" + 1 ∧
      ∀ type, type ≠ "backend_call_error" →
        (handleRequest "http://backend:5000" World.init (sampleRequest "GET" "/api/products")
          (sampleEnv (BackendReply.responds 6000 200 Json.null))).1.frontendErrorsTotal type =
          World.init.frontendErrorsTotal type :=
  api_products_failure "http://backend:5000" World.init (sampleRequest "GET" "/api/products")
    (sampleEnv (BackendReply.responds 6000 200 Json.null)) rfl rfl (by decide)
    (Or.inr ⟨6000, 200, Json.null, rfl, Or.inl (by decide)⟩)

/-- C3: when the downstream call of `GET /api/products` succeeds (a reply with a status in
200..299 within the timeout), the client receives status 200 with the downstream data as
body, and no counter of `frontend_errors_total` changes. -/
theorem api_products_success (BACKEND_URL : String) (w : World) (r : Request) (env : Env)
    (delayMs status : Nat) (data : Json)
    (hstatic : staticResult r env = StaticOutcome.fallthrough)
    (hbody : env.bodyError = none)
    (hroute : dispatch r.method r.path = Dispatch.handler Route.apiProducts)
    (hreply : env.backend = BackendReply.responds delayMs status data)
    (hdelay : delayMs < 5000) (hstatus : 200 ≤ status ∧ status < 300) :
    (handleRequest BACKEND_URL w r env).2.statusCode = 200 ∧
    (handleRequest BACKEND_URL w r env).2.body = Body.json data ∧
    (handleRequest BACKEND_URL w r env).1.frontendErrorsTotal = w.frontendErrorsTotal := by
  rw [handleRequest_routed BACKEND_URL w r env _ hstatic hbody hroute]
  simp only [handleRoute, apiProducts, hreply, axiosGet_resolves 5000 _ _ _ _ hdelay hstatus]
  simp [apiProductsBegin, apiProductsResume, tracingMiddleware, resJson, resSend,
    World.startSpan, World.call, Exchange.ofRequest,
    World.log, World.incErrors, World.setTag, World.spanLog, World.finish, World.incRequests,
    World.observeDuration]

/-- Witness of C3: the backend answers `GET /api/products` with two products after 20 ms. -/
theorem api_products_success_witness :
    (handleRequest "http://backend:5000" World.init (sampleRequest "GET" "/api/products")
      (sampleEnv sampleProducts)).2.statusCode = 200 ∧
    (handleRequest "http://backend:5000" World.init (sampleRequest "GET" "/api/products")
      (sampleEnv sampleProducts)).2.body =
        Body.json (Json.arr [Json.obj [("id", Json.num 1)], Json.obj [("id", Json.num 2)]]) ∧
    (handleRequest "http://backend:5000" World.init (sampleRequest "GET" "/api/products")
      (sampleEnv sampleProducts)).1.frontendErrorsTotal = World.init.frontendErrorsTotal :=
  api_products_success "http://backend:5000" World.init (sampleRequest "GET" "/api/products")
    (sampleEnv sampleProducts) 20 200 _ rfl rfl (by decide) rfl (by decide) (by decide)

/-- C4 (as stated, refuted): a `GET /api/error` whose body `express.json()` cannot parse
never reaches the route: the error handler answers it with status 500 and the body
`error: Erreur interne, message: <message of the error>`, which has no `timestamp`; the
counter of `intentional_error` is not incremented and the counter of `unhandled_error`
is. -/
theorem api_error_unparseable_body :
    dispatch "GET" "/api/error" = Dispatch.handler Route.apiError ∧
    (handleRequest "http://backend:5000" World.init (sampleRequest "GET" "/api/error")
      (sampleBodyErrorEnv "Unexpected end of JSON input")).2.body =
      Body.json (Json.obj [("error", Json.str "Erreur interne"),
        ("message", Json.str "Unexpected end of JSON input")]) ∧
    (handleRequest "http://backend:5000" World.init (sampleRequest "GET" "/api/error")
      (sampleBodyErrorEnv "Unexpected end of JSON input")).1.frontendErrorsTotal
        "intentional_error" ≠ World.init.frontendErrorsTotal "intentional_error" + 1 ∧
    (handleRequest "http://backend:5000" World.init (sampleRequest "GET" "/api/error")
      (sampleBodyErrorEnv "Unexpected end of JSON input")).1.frontendErrorsTotal
        "unhandled_error" = World.init.frontendErrorsTotal "unhandled_error" + 1 := by
  refine ⟨by decide, rfl, by decide, by decide⟩

/-- C4 (amended): every `GET /api/error` that reaches its route handler, that is, one that
`express.static` passes on and whose body `express.json()` accepts, is answered, whatever
else the request contains and whatever the prior state, with status 500 and a body made
of the fields `error`, `message` and `timestamp`; the counter `frontend_errors_total` of
`intentional_error` grows by exactly 1 and the counter of every other error type keeps its
value. -/
theorem api_error_contract (BACKEND_URL : String) (w : World) (r : Request) (env : Env)
    (hstatic : staticResult r env = StaticOutcome.fallthrough)
    (hbody : env.bodyError = none)
    (hroute : dispatch r.method r.path = Dispatch.handler Route.apiError) :
    (handleRequest BACKEND_URL w r env).2.statusCode = 500 ∧
    (handleRequest BACKEND_URL w r env).2.body = Body.json (Json.obj
        [("error", Json.str "Erreur interne du serveur"),
         ("message", Json.str
            "Cette erreur a été générée intentionnellement pour tester l\x27observabilité"),
         ("timestamp", Json.str env.isoTime)]) ∧
    (handleRequest BACKEND_URL w r env).1.frontendErrorsTotal "intentional_error" =
      w.frontendErrorsTotal "intentional_error" + 1 ∧
    ∀ type, type ≠ "intentional_error" →
      (handleRequest BACKEND_URL w r env).1.frontendErrorsTotal type =
        w.frontendErrorsTotal type := by
  rw [handleRequest_routed BACKEND_URL w r env _ hstatic hbody hroute]
  simp [handleRoute, apiError, tracingMiddleware, resStatusJson, resSend, World.startSpan,
    World.log, World.incErrors, World.setTag, World.spanLog, World.finish, World.incRequests,
    World.observeDuration]

/-- Witness of C4 (amended): `GET /api/error` without a body on a fresh process. -/
theorem api_error_contract_witness :
    (handleRequest "http://backend:5000" World.init (sampleRequest "GET" "/api/error")
      (sampleEnv sampleProducts)).2.statusCode = 500 ∧
    (handleRequest "http://backend:5000" World.init (sampleRequest "GET" "/api/error")
      (sampleEnv sampleProducts)).2.body = Body.json (Json.obj
        [("error", Json.str "Erreur interne du serveur"),
         ("message", Json.str
            "Cette erreur a été générée intentionnellement pour tester l\x27observabilité"),
         ("timestamp", Json.str (sampleEnv sampleProducts).isoTime)]) ∧
    (handleRequest "http://backend:5000" World.init (sampleRequest "GET" "/api/error")
      (sampleEnv sampleProducts)).1.frontendErrorsTotal "intentional_error" =
      World.init.frontendErrorsTotal "intentional_error" + 1 ∧
    ∀ type, type ≠ "intentional_error" →
      (handleRequest "http://backend:5000" World.init (sampleRequest "GET" "/api/error")
        (sampleEnv sampleProducts)).1.frontendErrorsTotal type =
        World.init.frontendErrorsTotal type :=
  api_error_contract "http://backend:5000" World.init (sampleRequest "GET" "/api/error")
    (sampleEnv sampleProducts) rfl rfl (by decide)

/-- C5: a request handled by `GET /api/products` or `GET /api/slow` opens exactly one child
span, whose parent is the root span of the request; whatever the outcome of the downstream
call, that span is started once and finished exactly once, and exactly one downstream call
is made, carrying the context of that span. Under every interleaving of requests and
resumed handlers, no span is ever finished twice, and every child span started is finished
exactly once unless its downstream call is still in flight, in which case it is not
finished yet. -/
theorem child_span_finished_once (BACKEND_URL : String) (w : World) (r : Request) (env : Env)
    (route : Route)
    (hstatic : staticResult r env = StaticOutcome.fallthrough)
    (hbody : env.bodyError = none)
    (hroute : dispatch r.method r.path = Dispatch.handler route)
    (hcall : route = Route.apiProducts ∨ route = Route.apiSlow) :
    (childSpans (callsSince w (handleRequest BACKEND_URL w r env).1) = [freshId w.tracer + 1] ∧
      parentOf (freshId w.tracer + 1) (handleRequest BACKEND_URL w r env).1.tracer =
        some (freshId w.tracer) ∧
      startCount (freshId w.tracer + 1) (handleRequest BACKEND_URL w r env).1.tracer = 1 ∧
      finishCount (freshId w.tracer + 1) (handleRequest BACKEND_URL w r env).1.tracer = 1 ∧
      ∃ call, (handleRequest BACKEND_URL w r env).1.axios = w.axios ++ [call] ∧
        call.traceSpan = freshId w.tracer + 1) ∧
    ∀ events : List Event,
      (∀ id, finishCount id (Process.init.exec BACKEND_URL events).world.tracer ≤ 1) ∧
      ∀ c ∈ childSpans (Process.init.exec BACKEND_URL events).world.tracer,
        finishCount c (Process.init.exec BACKEND_URL events).world.tracer = 1 ∨
        (finishCount c (Process.init.exec BACKEND_URL events).world.tracer = 0 ∧
          ∃ q ∈ (Process.init.exec BACKEND_URL events).pending, q.childSpan = some c) :=
  ⟨child_span_of_request BACKEND_URL w r env route hstatic hbody hroute hcall,
   exec_spans BACKEND_URL⟩

/-- Witness of C5: `GET /api/slow` whose downstream call fails on the network starts its
child span (span 1) once and finishes it once. -/
theorem child_span_finished_once_witness :
    startCount (freshId World.init.tracer + 1) (handleRequest "http://backend:5000" World.init
      (sampleRequest "GET" "/api/slow")
      (sampleEnv (BackendReply.networkError 3 "connect ECONNREFUSED"))).1.tracer = 1 ∧
    finishCount (freshId World.init.tracer + 1) (handleRequest "http://backend:5000" World.init
      (sampleRequest "GET" "/api/slow")
      (sampleEnv (BackendReply.networkError 3 "connect ECONNREFUSED"))).1.tracer = 1 :=
  ⟨(child_span_finished_once "http://backend:5000" World.init
      (sampleRequest "GET" "/api/slow")
      (sampleEnv (BackendReply.networkError 3 "connect ECONNREFUSED")) Route.apiSlow
      rfl rfl (by decide) (Or.inr rfl)).1.2.2.1,
   (child_span_finished_once "http://backend:5000" World.init
      (sampleRequest "GET" "/api/slow")
      (sampleEnv (BackendReply.networkError 3 "connect ECONNREFUSED")) Route.apiSlow
      rfl rfl (by decide) (Or.inr rfl)).1.2.2.2.1⟩

/-- C6 (as stated, refuted): two requests that differ only in the message of the error
raised by `express.json()` receive different bodies from the error handler, and each
body carries the message of its error. -/
theorem global_handler_body_carries_message :
    (handleRequest "http://backend:5000" World.init (sampleRequest "POST" "/api/products")
      (sampleBodyErrorEnv "Unexpected end of JSON input")).2.body ≠
    (handleRequest "http://backend:5000" World.init (sampleRequest "POST" "/api/products")
      (sampleBodyErrorEnv "request entity too large")).2.body ∧
    (handleRequest "http://backend:5000" World.init (sampleRequest "POST" "/api/products")
      (sampleBodyErrorEnv "Unexpected end of JSON input")).2.body =
      Body.json (Json.obj [("error", Json.str "Erreur interne"),
        ("message", Json.str "Unexpected end of JSON input")]) := by
  constructor
  · intro h
    have h2 : "Unexpected end of JSON input" = "request entity too large" := by
      injection h with h
      injection h with h
      simp at h
    exact absurd h2 (by decide)
  · rfl

/-- C6 (amended): for every error that reaches the global error handler the response has
status 500 and the body `error: Erreur interne, message: <message of the error>`: the
status and the field `error` do not depend on the error, the field `message` is the
original message, and the same message is in the error-level log record the handler
writes first. -/
theorem global_handler_response (w : World) (x : Exchange) (env : Env) (err : JsError) :
    (globalErrorHandler w x env err).2.statusCode = 500 ∧
    (globalErrorHandler w x env err).2.body = Body.json (Json.obj
      [("error", Json.str "Erreur interne"), ("message", Json.str err.message)]) ∧
    (logsSince w (globalErrorHandler w x env err).1).head? =
      some { level := Level.error, message := "Erreur non gérée",
             fields := [("error", Json.str err.message), ("stack", Json.str err.stack)]
               ++ x.ids } := by
  cases hs : x.span <;> cases hh : x.send <;>
    simp [globalErrorHandler, resStatusJson, resSend, hs, hh, logsSince,
      World.log, World.incErrors, World.setTag, World.spanLog, World.finish,
      World.incRequests, World.observeDuration]

/-- C7: for every error that reaches the global error handler, the handler adds exactly 1
to the counter `frontend_errors_total` of `unhandled_error` and leaves every other error
type alone, writes exactly one error-level log record, answers with status 500, and, when
the request has a span, tags it `error=true` and logs the error on it; when the request has
no span the handler makes no call on any span (the remaining calls are those of the
replaced `res.send`, present only when the tracing middleware has run). -/
theorem global_handler_contract (w : World) (x : Exchange) (env : Env) (err : JsError) :
    (globalErrorHandler w x env err).1.frontendErrorsTotal "unhandled_error" =
      w.frontendErrorsTotal "unhandled_error" + 1 ∧
    (∀ type, type ≠ "unhandled_error" →
      (globalErrorHandler w x env err).1.frontendErrorsTotal type = w.frontendErrorsTotal type) ∧
    ((logsSince w (globalErrorHandler w x env err).1).filter
      fun record => decide (record.level = Level.error)).length = 1 ∧
    (globalErrorHandler w x env err).2.statusCode = 500 ∧
    callsSince w (globalErrorHandler w x env err).1 =
      (match x.span with
        | some span =>
          [SpanEvent.setTag span Tags.ERROR (Json.bool true),
           SpanEvent.log span [("event", Json.str "error"), ("message", Json.str err.message),
             ("stack", Json.str err.stack)]]
        | none => []) ++
      (match x.send with
        | some hook =>
          [SpanEvent.setTag hook.span Tags.HTTP_STATUS_CODE (Json.num 500),
           SpanEvent.setTag hook.span Tags.ERROR (Json.bool true),
           SpanEvent.finish hook.span]
        | none => []) := by
  cases hs : x.span <;> cases hh : x.send <;>
    simp [globalErrorHandler, resStatusJson, resSend, hs, hh, logsSince, callsSince,
      World.log, World.incErrors, World.setTag, World.spanLog, World.finish,
      World.incRequests, World.observeDuration]

/-- C8: `GET /api/slow` and `GET /api/products` satisfy one and the same downstream
contract (one call, one child span started and finished, status 200 with the downstream
data when the call resolves, status 503 with a body of the fields `error` and `message`
when it rejects), instantiated with the path `/slow`, the timeout 15000 ms and the error
type `backend_slow_error` for the former, and with `/products`, 5000 ms and
`backend_call_error` for the latter; on `/api/slow` a reply with a 2xx status that arrives
before 15000 ms (14 s, say) gives 200 and a reply that takes 15000 ms or more gives 503. -/
theorem api_slow_same_contract :
    DownstreamContract Route.apiProducts "/products" 5000 "backend_call_error" ∧
    DownstreamContract Route.apiSlow "/slow" 15000 "backend_slow_error" ∧
    ∀ (BACKEND_URL : String) (w : World) (r : Request) (env : Env)
      (delayMs status : Nat) (data : Json),
      staticResult r env = StaticOutcome.fallthrough →
      env.bodyError = none →
      dispatch r.method r.path = Dispatch.handler Route.apiSlow →
      env.backend = BackendReply.responds delayMs status data →
      (delayMs < 15000 → 200 ≤ status → status < 300 →
        (handleRequest BACKEND_URL w r env).2.statusCode = 200 ∧
        (handleRequest BACKEND_URL w r env).2.body = Body.json data) ∧
      (15000 ≤ delayMs → (handleRequest BACKEND_URL w r env).2.statusCode = 503) :=
  ⟨apiProducts_contract, apiSlow_contract, apiSlow_timing⟩

/-- Witness of C8: on `GET /api/slow` a reply after 14000 ms is passed on with status 200
and a reply after 15000 ms is answered with status 503. -/
theorem api_slow_same_contract_witness :
    ((handleRequest "http://backend:5000" World.init (sampleRequest "GET" "/api/slow")
        (sampleEnv (BackendReply.responds 14000 200 (Json.str "done")))).2.statusCode = 200 ∧
      (handleRequest "http://backend:5000" World.init (sampleRequest "GET" "/api/slow")
        (sampleEnv (BackendReply.responds 14000 200 (Json.str "done")))).2.body =
        Body.json (Json.str "done")) ∧
    (handleRequest "http://backend:5000" World.init (sampleRequest "GET" "/api/slow")
      (sampleEnv (BackendReply.responds 15000 200 (Json.str "done")))).2.statusCode = 503 :=
  ⟨(api_slow_same_contract.2.2 "http://backend:5000" World.init
      (sampleRequest "GET" "/api/slow")
      (sampleEnv (BackendReply.responds 14000 200 (Json.str "done"))) 14000 200 _
      rfl rfl (by decide) rfl).1 (by decide) (by decide) (by decide),
   (api_slow_same_contract.2.2 "http://backend:5000" World.init
      (sampleRequest "GET" "/api/slow")
      (sampleEnv (BackendReply.responds 15000 200 (Json.str "done"))) 15000 200 _
      rfl rfl (by decide) rfl).2 (by decide)⟩

/-- C9: each time the replaced `res.send` finalises a request with method `m`, path `p`
and status `s`, the counter `http_requests_total` of `(m, p, toString s)` grows by exactly
1, exactly one observation, `(now - start) / 1000`, is appended to
`http_request_duration_seconds` under the same labels, every other label combination of
both metrics and every counter of `frontend_errors_total` keep their state; and in every
state the process reaches, whether requests are handled one after the other or their
handlers interleave at their suspension points, the request counter of every label
combination equals the observation count of the histogram. -/
theorem request_metrics_recorded_together :
    (∀ (w : World) (x : Exchange) (env : Env) (data : Body) (hook : SendHook),
      x.send = some hook →
      (resSend w x env data).1.httpRequestsTotal (x.method, x.path, toString x.statusCode) =
        w.httpRequestsTotal (x.method, x.path, toString x.statusCode) + 1 ∧
      (resSend w x env data).1.httpRequestDuration (x.method, x.path, toString x.statusCode) =
        w.httpRequestDuration (x.method, x.path, toString x.statusCode) ++
          [((env.sendTime - hook.startTime : Int) : ℚ) / 1000] ∧
      (∀ k, k ≠ (x.method, x.path, toString x.statusCode) →
        (resSend w x env data).1.httpRequestsTotal k = w.httpRequestsTotal k ∧
        (resSend w x env data).1.httpRequestDuration k = w.httpRequestDuration k) ∧
      (resSend w x env data).1.frontendErrorsTotal = w.frontendErrorsTotal) ∧
    (∀ (BACKEND_URL : String) (inputs : List (Request × Env)) (l : Labels),
      (run BACKEND_URL World.init inputs).httpRequestsTotal l =
        observationCount ((run BACKEND_URL World.init inputs).httpRequestDuration l)) ∧
    ∀ (BACKEND_URL : String) (events : List Event) (l : Labels),
      (Process.init.exec BACKEND_URL events).world.httpRequestsTotal l =
        observationCount
          ((Process.init.exec BACKEND_URL events).world.httpRequestDuration l) :=
  ⟨interceptor_records,
   fun BACKEND_URL inputs => metricsInSync_run BACKEND_URL inputs World.init metricsInSync_init,
   fun BACKEND_URL events => (valid_exec BACKEND_URL events Process.init valid_init).sync⟩

/-- Witness of C9: `res.send` on a fresh process for `GET /health` with status 200, 250 ms
after arrival, leaves the counter at 1 and the observation list at one element. -/
theorem request_metrics_recorded_together_witness :
    (resSend World.init sampleExchange (sampleEnv sampleProducts)
        (Body.text "ok")).1.httpRequestsTotal ("GET", "/health", "200") = 0 + 1 ∧
    (resSend World.init sampleExchange (sampleEnv sampleProducts)
        (Body.text "ok")).1.httpRequestDuration ("GET", "/health", "200") =
      [] ++ [((1700000000250 - 1700000000000 : Int) : ℚ) / 1000] :=
  ⟨(request_metrics_recorded_together.1 World.init sampleExchange (sampleEnv sampleProducts)
      (Body.text "ok") _ rfl).1,
   (request_metrics_recorded_together.1 World.init sampleExchange (sampleEnv sampleProducts)
      (Body.text "ok") _ rfl).2.1⟩

/-- C10: for every request, if its root span is finished then the span carries
`error=true` at that moment exactly when the final status is 400 or more; on the paths
answered through `res.send` the root span is indeed finished; the child span of
`/api/products` and of `/api/slow` is finished carrying `error=true` exactly when the
downstream call failed; and no request adds a tag or a log entry to a span that is already
finished, so that no state the process reaches contains such a call, also when the
handlers of several requests interleave at their suspension points. -/
theorem error_tag_before_finish (BACKEND_URL : String) (w : World) (r : Request)
    (env : Env) :
    (∀ flag, errorAtFinish (freshId w.tracer) (handleRequest BACKEND_URL w r env).1.tracer =
        some flag →
      (flag = true ↔ 400 ≤ (handleRequest BACKEND_URL w r env).2.statusCode)) ∧
    (staticResult r env = StaticOutcome.fallthrough → env.bodyError = none →
      ((dispatch r.method r.path = Dispatch.handler Route.health ∨
          dispatch r.method r.path = Dispatch.handler Route.apiProducts ∨
          dispatch r.method r.path = Dispatch.handler Route.apiSlow ∨
          dispatch r.method r.path = Dispatch.handler Route.apiError ∨
          (dispatch r.method r.path = Dispatch.handler Route.root ∧
            ∃ err, env.sendFile = Except.error err)) →
        ∃ flag, errorAtFinish (freshId w.tracer)
          (handleRequest BACKEND_URL w r env).1.tracer = some flag) ∧
      (dispatch r.method r.path = Dispatch.handler Route.apiProducts →
        errorAtFinish (freshId w.tracer + 1) (handleRequest BACKEND_URL w r env).1.tracer =
          some (failed (axiosGet 5000 env.errorStack env.backend))) ∧
      (dispatch r.method r.path = Dispatch.handler Route.apiSlow →
        errorAtFinish (freshId w.tracer + 1) (handleRequest BACKEND_URL w r env).1.tracer =
          some (failed (axiosGet 15000 env.errorStack env.backend)))) ∧
    lateMutations (handleRequest BACKEND_URL w r env).1.tracer = lateMutations w.tracer ∧
    (∀ inputs, lateMutations (run BACKEND_URL World.init inputs).tracer = 0) ∧
    ∀ events : List Event,
      lateMutations (Process.init.exec BACKEND_URL events).world.tracer = 0 :=
  ⟨fun flag h => error_tag_root BACKEND_URL w r env flag h,
   fun hstatic hbody =>
     ⟨error_tag_root_sent BACKEND_URL w r env hstatic hbody,
      error_tag_child BACKEND_URL w r env hstatic hbody⟩,
   lateMutations_handleRequest BACKEND_URL w r env,
   fun inputs => lateMutations_run BACKEND_URL inputs World.init,
   fun events => (valid_exec BACKEND_URL events Process.init valid_init).late⟩

/-- Witness of C10: on a fresh process, `GET /api/products` whose downstream call times out
finishes its child span (span 1) with `error=true`, and its root span (span 0) is finished
with `error=true` as well, the status being 503. -/
theorem error_tag_before_finish_witness :
    errorAtFinish (freshId World.init.tracer + 1)
      (handleRequest "http://backend:5000" World.init (sampleRequest "GET" "/api/products")
        (sampleEnv (BackendReply.responds 6000 200 Json.null))).1.tracer =
      some (failed (axiosGet 5000 (sampleEnv (BackendReply.responds 6000 200 Json.null)).errorStack
        (sampleEnv (BackendReply.responds 6000 200 Json.null)).backend)) ∧
    (true = true ↔ 400 ≤ (handleRequest "http://backend:5000" World.init
      (sampleRequest "GET" "/api/products")
      (sampleEnv (BackendReply.responds 6000 200 Json.null))).2.statusCode) :=
  ⟨((error_tag_before_finish "http://backend:5000" World.init
      (sampleRequest "GET" "/api/products")
      (sampleEnv (BackendReply.responds 6000 200 Json.null))).2.1 rfl rfl).2.1 (by decide),
   (error_tag_before_finish "http://backend:5000" World.init
      (sampleRequest "GET" "/api/products")
      (sampleEnv (BackendReply.responds 6000 200 Json.null))).1 true (by decide)⟩

end Frontend
